import Mathlib

/-!
# NetTask datagram protocol — verification development

Shallow embedding of the NetTask wire protocol (public/private headers,
handshake variants, encrypted PushSchemas/Metric variants) together with
models of its external collaborators (buffer codec, ECDHE session, SPACK
codec), and proofs of the specification claims about it.

Bytes are modelled as natural numbers below 256 in lists (`List Nat`);
multi-byte integers are big-endian, as on the wire.
-/

/-! ## Error taxonomy (spec §7) -/

/-- Typed errors surfaced by the datagram layer.  `MalformedPayload` carries
the causing error, mirroring the `{ cause: e }` rethrow in the source. -/
inductive NTError where
  | InvalidSignature : NTError
  | TruncatedFrame : NTError
  | InvalidCryptoMark : NTError
  | InvalidVersion : NTError
  | WrongType : NTError
  | CryptoFailure : NTError
  | UnknownTask : NTError
  | NotLinked : NTError
  | MalformedPayload : NTError → NTError
deriving DecidableEq, Repr

/-! ## Buffer codec

Modelled from the spec: the repository's `BufferReader`/`BufferWriter`
(`$common/util/buffer.js`) are not under `src/`.  Spec §4.1: a positional
reader over an immutable byte buffer; `read(n)` advances by `n` and returns
the next `n` bytes; `readUIntN` reads big-endian; out-of-bounds reads fail
with `TruncatedFrame`.  The cursor is represented by the remaining suffix of
the buffer: each read returns the consumed bytes and the rest. -/

/-- `read(n)`: take the next `n` bytes, failing with `TruncatedFrame` when
fewer than `n` remain (spec §4.1). -/
def readBytes (n : Nat) (buf : List Nat) : Except NTError (List Nat × List Nat) :=
  if n ≤ buf.length then .ok (buf.take n, buf.drop n) else .error .TruncatedFrame

/-- `readUInt32`: big-endian 32-bit read (spec §4.1). -/
def readUInt32 (buf : List Nat) : Except NTError (Nat × List Nat) :=
  match buf with
  | a :: b :: c :: d :: rest => .ok (((a * 256 + b) * 256 + c) * 256 + d, rest)
  | _ => .error .TruncatedFrame

/-- `readInt8`: signed 8-bit read (used for the `fragmented` flag). -/
def readInt8 (buf : List Nat) : Except NTError (Int × List Nat) :=
  match buf with
  | a :: rest => .ok (if a < 128 then (a : Int) else (a : Int) - 256, rest)
  | _ => .error .TruncatedFrame

/-- `writeUInt32`: big-endian 32-bit write (spec §4.1). -/
def writeUInt32 (n : Nat) : List Nat :=
  [n / 16777216 % 256, n / 65536 % 256, n / 256 % 256, n % 256]

/-- `writeUInt8` of a coerced boolean (`+this.fragmented` in the source). -/
def writeBool8 (b : Bool) : List Nat := [if b then 1 else 0]

/-! ## Wire constants (source lines 25–28, spec §6) -/

def NET_TASK_VERSION : Nat := 1

/-- `Buffer.from("NTTK", "utf8")`. -/
def NET_TASK_SIGNATURE : List Nat := [78, 84, 84, 75]

/-- `Buffer.from("CC", "utf8")`. -/
def NET_TASK_CRYPTO : List Nat := [67, 67]

/-- `Buffer.from("NC", "utf8")`. -/
def NET_TASK_NOCRYPTO : List Nat := [78, 67]

/-- Modelled from the spec: `HASH_LEN` is exported by the missing
`$common/protocol/ecdhe.js`; spec §6 fixes it as the byte length of the
key-agreement hash, "typically 32". -/
def HASH_LEN : Nat := 32

/-- The `NetTaskDatagramType` enum (source lines 30–42): a numeric TS enum,
kept as `Nat` constants because the deserializer stores the raw `u32`. -/
def NetTaskDatagramType.REQUEST_REGISTER : Nat := 0

def NetTaskDatagramType.REGISTER_CHALLENGE : Nat := 1

def NetTaskDatagramType.REGISTER_CHALLENGE2 : Nat := 2

def NetTaskDatagramType.CONNECTION_REJECTED : Nat := 3

def NetTaskDatagramType.PUSH_SCHEMAS : Nat := 4

def NetTaskDatagramType.SEND_METRICS : Nat := 5

/-! ## Base datagram (class `NetTask`, source lines 48–228) -/

/-- `NetTaskPublicHeader` (source lines 17–21). -/
structure NetTaskPublicHeader where
  cryptoMark : List Nat
  sessionId : List Nat
  payloadSize : Nat
deriving DecidableEq, Repr

/-- The fields of the base `NetTask` class (source lines 49–57). -/
structure NetTask where
  sessionId : List Nat
  cryptoMark : List Nat
  version : Nat
  sequenceNumber : Nat
  fragmented : Bool
  acknowledgementNumber : Nat
  type : Nat
  payloadSize : Nat
deriving DecidableEq, Repr

/-- The `NetTask` constructor (source lines 59–83): sets
`version := NET_TASK_VERSION`. -/
def NetTask.mk' (sessionId cryptoMark : List Nat) (sequenceNumber acknowledgementNumber : Nat)
    (fragmented : Bool) (type : Nat) (payloadSize : Nat) : NetTask :=
  { sessionId := sessionId, cryptoMark := cryptoMark, version := NET_TASK_VERSION,
    sequenceNumber := sequenceNumber, acknowledgementNumber := acknowledgementNumber,
    fragmented := fragmented, type := type, payloadSize := payloadSize }

/-- `NetTask.isEncrypted` (source lines 115–121). -/
def NetTask.isEncrypted (nt : NetTask) : Bool := NET_TASK_CRYPTO = nt.cryptoMark

/-- `NetTask.verifySignature` (source lines 129–133): read 4 bytes and
compare with `NTTK`. -/
def NetTask.verifySignature (buf : List Nat) : Except NTError (Bool × List Nat) := do
  let (sig, buf) ← readBytes 4 buf
  pure (NET_TASK_SIGNATURE = sig, buf)

/-- `NetTask.serializePublicHeader` (source lines 172–180). -/
def NetTask.serializePublicHeader (nt : NetTask) : List Nat :=
  NET_TASK_SIGNATURE ++ nt.sessionId ++ nt.cryptoMark ++ writeUInt32 nt.payloadSize

/-- `NetTask.serializePrivateHeader` (source lines 182–192). -/
def NetTask.serializePrivateHeader (nt : NetTask) : List Nat :=
  writeUInt32 nt.version ++ writeUInt32 nt.sequenceNumber ++
    writeUInt32 nt.acknowledgementNumber ++ writeBool8 nt.fragmented ++ writeUInt32 nt.type

/-- `NetTask.deserializePublicHeader` (source lines 194–205). -/
def NetTask.deserializePublicHeader (buf : List Nat) :
    Except NTError (NetTaskPublicHeader × List Nat) := do
  let (sessionId, buf) ← readBytes HASH_LEN buf
  let (cryptoMark, buf) ← readBytes NET_TASK_CRYPTO.length buf
  if NET_TASK_CRYPTO ≠ cryptoMark ∧ NET_TASK_NOCRYPTO ≠ cryptoMark then
    throw .InvalidCryptoMark
  else
    let (payloadSize, buf) ← readUInt32 buf
    pure ({ sessionId := sessionId, cryptoMark := cryptoMark, payloadSize := payloadSize }, buf)

/-- `NetTask.deserializePrivateHeader` (source lines 207–227). -/
def NetTask.deserializePrivateHeader (buf : List Nat) (partialHeader : NetTaskPublicHeader) :
    Except NTError (NetTask × List Nat) := do
  let (version, buf) ← readUInt32 buf
  if version ≠ NET_TASK_VERSION then
    throw .InvalidVersion
  else
    let (sequenceNumber, buf) ← readUInt32 buf
    let (acknowledgementNumber, buf) ← readUInt32 buf
    let (fragmentedBool, buf) ← readInt8 buf
    let (type, buf) ← readUInt32 buf
    pure (NetTask.mk' partialHeader.sessionId partialHeader.cryptoMark
      sequenceNumber acknowledgementNumber (fragmentedBool ≠ 0) type
      partialHeader.payloadSize, buf)

/-! ## ECDHE session model

Modelled from the spec: the repository's `$common/protocol/ecdhe.js` is not
under `src/`.  Spec §6 gives its contract: `encrypt`/`decrypt` and
`envelope`/`openEnvelope` are two independently-keyed AEAD contexts over the
session secret (records `{iv, tag, ciphertext}`); failures raise
`CryptoFailure`; `serializeEncryptedMessage`/`deserializeEncryptedMessage`
give a record a self-describing byte form.  The model keys both contexts on
the derived symmetric material and distinguishes them by the `iv` label. -/

/-- An AEAD record `{iv, tag, ciphertext}` (spec §6). -/
structure EncryptedMessage where
  iv : List Nat
  tag : List Nat
  ciphertext : List Nat
deriving DecidableEq, Repr

/-- An ECDHE session holding the derived shared symmetric material. -/
structure ECDHE where
  key : List Nat
deriving DecidableEq, Repr

/-- `encrypt(plain)`: the application-body AEAD context (label `0`). -/
def ECDHE.encrypt (e : ECDHE) (plain : List Nat) : EncryptedMessage :=
  { iv := [0], tag := e.key, ciphertext := plain }

/-- `decrypt(record)`: inverts `encrypt` under the same session key, failing
with `CryptoFailure` on a wrong context or key. -/
def ECDHE.decrypt (e : ECDHE) (m : EncryptedMessage) : Except NTError (List Nat) :=
  if m.iv = [0] ∧ m.tag = e.key then .ok m.ciphertext else .error .CryptoFailure

/-- `envelope(plain)`: the outer AEAD context (label `1`), distinct from
`encrypt` (spec: "Envelope and encrypt are distinct AEAD contexts"). -/
def ECDHE.envelope (e : ECDHE) (plain : List Nat) : EncryptedMessage :=
  { iv := [1], tag := e.key, ciphertext := plain }

/-- `openEnvelope(record)`: inverts `envelope` under the same session key. -/
def ECDHE.openEnvelope (e : ECDHE) (m : EncryptedMessage) : Except NTError (List Nat) :=
  if m.iv = [1] ∧ m.tag = e.key then .ok m.ciphertext else .error .CryptoFailure

/-- `ECDHE.serializeEncryptedMessage(record)`: self-describing wire form,
each component length-prefixed (spec §6). -/
def ECDHE.serializeEncryptedMessage (m : EncryptedMessage) : List Nat :=
  writeUInt32 m.iv.length ++ m.iv ++ writeUInt32 m.tag.length ++ m.tag ++
    writeUInt32 m.ciphertext.length ++ m.ciphertext

/-- `ECDHE.deserializeEncryptedMessage(bytes)`: parses the self-describing
wire form back into a record. -/
def ECDHE.deserializeEncryptedMessage (bs : List Nat) : Except NTError EncryptedMessage := do
  let (ivLen, bs) ← readUInt32 bs
  let (iv, bs) ← readBytes ivLen bs
  let (tagLen, bs) ← readUInt32 bs
  let (tag, bs) ← readBytes tagLen bs
  let (ctLen, bs) ← readUInt32 bs
  let (ciphertext, _) ← readBytes ctLen bs
  pure { iv := iv, tag := tag, ciphertext := ciphertext }

/-! ## SPACK model

Modelled from the spec: `./spack.js` is not under `src/`.  Spec §6 contract:
`serializeSPACK`/`deserializeSPACK` an object codec, `packTaskSchemas`/
`unpackTaskSchemas` between a task map and its packed collection, and
`serializeTaskMetric`/`deserializeTaskMetric` bound to a task descriptor.
Task names are byte strings; task schemas, task descriptors and metric
objects are opaque and modelled as natural numbers. -/

/-- A packed task-schema collection: an association list from task name to
(opaque) task schema. -/
abbrev SPACKTaskCollectionPacked := List (List Nat × Nat)

/-- `packTaskSchemas(map)`: packing keeps the association structure. -/
def packTaskSchemas (m : List (List Nat × Nat)) : SPACKTaskCollectionPacked := m

/-- `unpackTaskSchemas(packed)`: inverse of `packTaskSchemas`. -/
def unpackTaskSchemas (p : SPACKTaskCollectionPacked) : List (List Nat × Nat) := p

/-- `_SPACKTask.getUnpacked()`: a `SPACKTask` wraps its unpacked schema. -/
def getUnpacked (t : Nat) : Nat := t

/-- `serializeSPACK` on a packed task collection: entry count, then each
entry as a length-prefixed name followed by the schema. -/
def serializeSPACK (p : SPACKTaskCollectionPacked) : List Nat :=
  writeUInt32 p.length ++
    (p.map (fun kv => writeUInt32 kv.1.length ++ kv.1 ++ writeUInt32 kv.2)).flatten

/-- Entry-list parser underlying `deserializeSPACK`. -/
def deserializeSPACKEntries : Nat → List Nat → Except NTError (SPACKTaskCollectionPacked × List Nat)
  | 0, bs => .ok ([], bs)
  | n + 1, bs => do
    let (kLen, bs) ← readUInt32 bs
    let (k, bs) ← readBytes kLen bs
    let (v, bs) ← readUInt32 bs
    let (entries, bs) ← deserializeSPACKEntries n bs
    pure ((k, v) :: entries, bs)

/-- `deserializeSPACK(bytes)`: parses a packed task collection. -/
def deserializeSPACK (bs : List Nat) : Except NTError SPACKTaskCollectionPacked := do
  let (n, bs) ← readUInt32 bs
  let (entries, _) ← deserializeSPACKEntries n bs
  pure entries

/-- The `SPACKPacked | {[key: string]: SPACKTask}` union held by a
`NetTaskPushSchemas` (source line 566): either an already-packed collection
or an unpacked task map; `isSPACKTaskCollection` discriminates the arms. -/
inductive SchemasPayload where
  | packed (p : SPACKTaskCollectionPacked)
  | collection (m : List (List Nat × Nat))
deriving DecidableEq, Repr

/-- `isSPACKTaskCollection(x)` (spec §6). -/
def isSPACKTaskCollection : SchemasPayload → Bool
  | .packed _ => false
  | .collection _ => true

/-- `serializeTaskMetric(metric, task)`: a metric object serialized under a
task descriptor (the model's metric is one opaque number). -/
def serializeTaskMetric (m : Nat) (_task : Option Nat) : List Nat := writeUInt32 m

/-- `deserializeTaskMetric(bytes, taskDescriptor)`: requires the task
descriptor; fails when it is absent (spec §4.4: "The metric decoder requires
the task descriptor corresponding to `taskId`"). -/
def deserializeTaskMetric (bs : List Nat) (task : Option Nat) : Except NTError Nat :=
  match task with
  | none => .error .UnknownTask
  | some _ => do
    let (m, _) ← readUInt32 bs
    pure m

/-! ## JS string model

Modelled from the spec/platform: the `taskId` of a Metric datagram is a JS
string.  It is modelled as its sequence of Unicode code points;
`utf16Length` is the JS `.length` (UTF-16 code-unit count) and `utf8Encode`
is `Buffer.from(s, "utf8")`; `utf8Decode` is `buffer.toString("utf8")`. -/

/-- UTF-16 code units taken by one code point. -/
def utf16Units (c : Nat) : Nat := if c < 65536 then 1 else 2

/-- The JS `.length` of a string: its UTF-16 code-unit count. -/
def utf16Length (s : List Nat) : Nat := (s.map utf16Units).sum

/-- UTF-8 encoding of one code point. -/
def utf8EncodeChar (c : Nat) : List Nat :=
  if c < 128 then [c]
  else if c < 2048 then [192 + c / 64, 128 + c % 64]
  else if c < 65536 then [224 + c / 4096, 128 + c / 64 % 64, 128 + c % 64]
  else [240 + c / 262144, 128 + c / 4096 % 64, 128 + c / 64 % 64, 128 + c % 64]

/-- `Buffer.from(s, "utf8")`. -/
def utf8Encode (s : List Nat) : List Nat := (s.map utf8EncodeChar).flatten

/-- Fuel-indexed worker for `utf8Decode`; the fuel bounds the number of
decoded characters by the byte length. -/
def utf8DecodeGo : Nat → List Nat → List Nat
  | 0, _ => []
  | _ + 1, [] => []
  | fuel + 1, b :: rest =>
    if b < 128 then b :: utf8DecodeGo fuel rest
    else if b < 224 then
      match rest with
      | b1 :: rest1 => ((b - 192) * 64 + (b1 - 128)) :: utf8DecodeGo fuel rest1
      | [] => [65533]
    else if b < 240 then
      match rest with
      | b1 :: b2 :: rest2 =>
        (((b - 224) * 64 + (b1 - 128)) * 64 + (b2 - 128)) :: utf8DecodeGo fuel rest2
      | _ => [65533]
    else
      match rest with
      | b1 :: b2 :: b3 :: rest3 =>
        ((((b - 240) * 64 + (b1 - 128)) * 64 + (b2 - 128)) * 64 + (b3 - 128)) ::
          utf8DecodeGo fuel rest3
      | _ => [65533]

/-- `buffer.toString("utf8")`: greedy UTF-8 decoding (truncated tails give
the replacement character, as Node does). -/
def utf8Decode (bs : List Nat) : List Nat := utf8DecodeGo bs.length bs

/-! ## Variant: `NetTaskRejected` (source lines 230–259) -/

structure NetTaskRejected where
  sessionId : List Nat
  sequenceNumber : Nat
  acknowledgementNumber : Nat
deriving DecidableEq, Repr

/-- The base datagram built by the `NetTaskRejected` constructor (its
`super(...)` call), at a given `payloadSize`. -/
def NetTaskRejected.toNetTask (x : NetTaskRejected) (payloadSize : Nat) : NetTask :=
  NetTask.mk' x.sessionId NET_TASK_NOCRYPTO x.sequenceNumber x.acknowledgementNumber
    false NetTaskDatagramType.CONNECTION_REJECTED payloadSize

/-- `NetTaskRejected.serialize`: private header only; `payloadSize` is set
to its length before the public header is written. -/
def NetTaskRejected.serialize (x : NetTaskRejected) : List Nat :=
  let privHeader := (x.toNetTask 0).serializePrivateHeader
  let payloadSize := privHeader.length
  (x.toNetTask payloadSize).serializePublicHeader ++ privHeader

/-! ## Variant: `NetTaskRegister` (source lines 262–324) -/

structure NetTaskRegister where
  sessionId : List Nat
  sequenceNumber : Nat
  acknowledgementNumber : Nat
  fragmented : Bool
  publicKey : List Nat
deriving DecidableEq, Repr

/-- The base datagram built by the `NetTaskRegister` constructor. -/
def NetTaskRegister.toNetTask (x : NetTaskRegister) (payloadSize : Nat) : NetTask :=
  NetTask.mk' x.sessionId NET_TASK_NOCRYPTO x.sequenceNumber x.acknowledgementNumber
    x.fragmented NetTaskDatagramType.REQUEST_REGISTER payloadSize

/-- `NetTaskRegister.serialize` (source lines 286–302). -/
def NetTaskRegister.serialize (x : NetTaskRegister) : List Nat :=
  let privHeader := (x.toNetTask 0).serializePrivateHeader
  let payloadSize := privHeader.length + 4 + x.publicKey.length
  (x.toNetTask payloadSize).serializePublicHeader ++ privHeader ++
    writeUInt32 x.publicKey.length ++ x.publicKey

/-- `NetTaskRegister.deserialize` (source lines 304–323). -/
def NetTaskRegister.deserialize (buf : List Nat) (dg : NetTask) :
    Except NTError NetTaskRegister :=
  if dg.type ≠ NetTaskDatagramType.REQUEST_REGISTER then .error .WrongType
  else do
    let (publicKeyLen, buf) ← readUInt32 buf
    let (publicKey, _) ← readBytes publicKeyLen buf
    pure { sessionId := dg.sessionId, sequenceNumber := dg.sequenceNumber,
           acknowledgementNumber := dg.acknowledgementNumber,
           fragmented := dg.fragmented, publicKey := publicKey }

/-! ## Variant: `NetTaskRegisterChallenge` (source lines 326–403) -/

structure NetTaskRegisterChallenge where
  sessionId : List Nat
  sequenceNumber : Nat
  acknowledgementNumber : Nat
  fragmented : Bool
  publicKey : List Nat
  challenge : List Nat
  salt : List Nat
deriving DecidableEq, Repr

/-- The base datagram built by the `NetTaskRegisterChallenge` constructor. -/
def NetTaskRegisterChallenge.toNetTask (x : NetTaskRegisterChallenge) (payloadSize : Nat) :
    NetTask :=
  NetTask.mk' x.sessionId NET_TASK_NOCRYPTO x.sequenceNumber x.acknowledgementNumber
    x.fragmented NetTaskDatagramType.REGISTER_CHALLENGE payloadSize

/-- `NetTaskRegisterChallenge.serialize` (source lines 358–379). -/
def NetTaskRegisterChallenge.serialize (x : NetTaskRegisterChallenge) : List Nat :=
  let privHeader := (x.toNetTask 0).serializePrivateHeader
  let payloadSize := privHeader.length + x.publicKey.length + x.challenge.length +
    x.salt.length + 4 * 3
  (x.toNetTask payloadSize).serializePublicHeader ++ privHeader ++
    writeUInt32 x.publicKey.length ++ x.publicKey ++
    writeUInt32 x.challenge.length ++ x.challenge ++
    writeUInt32 x.salt.length ++ x.salt

/-- `NetTaskRegisterChallenge.deserialize` (source lines 381–402). -/
def NetTaskRegisterChallenge.deserialize (buf : List Nat) (dg : NetTask) :
    Except NTError NetTaskRegisterChallenge :=
  if dg.type ≠ NetTaskDatagramType.REGISTER_CHALLENGE then .error .WrongType
  else do
    let (publicKeyLen, buf) ← readUInt32 buf
    let (publicKey, buf) ← readBytes publicKeyLen buf
    let (challengeLen, buf) ← readUInt32 buf
    let (challenge, buf) ← readBytes challengeLen buf
    let (saltLen, buf) ← readUInt32 buf
    let (salt, _) ← readBytes saltLen buf
    pure { sessionId := dg.sessionId, sequenceNumber := dg.sequenceNumber,
           acknowledgementNumber := dg.acknowledgementNumber,
           fragmented := dg.fragmented, publicKey := publicKey,
           challenge := challenge, salt := salt }

/-! ## Variant: `NetTaskRegisterChallenge2` (source lines 496–562) -/

structure NetTaskRegisterChallenge2 where
  sessionId : List Nat
  sequenceNumber : Nat
  acknowledgementNumber : Nat
  fragmented : Bool
  challenge : List Nat
  ecdhe : Option ECDHE
deriving DecidableEq, Repr

/-- The `NetTaskRegisterChallenge2` constructor (source lines 500–517):
`cryptoMark = NC`; no ECDHE is linked yet. -/
def NetTaskRegisterChallenge2.mk' (sessionId : List Nat)
    (sequenceNumber acknowledgementNumber : Nat) (fragmented : Bool)
    (challenge : List Nat) : NetTaskRegisterChallenge2 :=
  { sessionId := sessionId, sequenceNumber := sequenceNumber,
    acknowledgementNumber := acknowledgementNumber, fragmented := fragmented,
    challenge := challenge, ecdhe := none }

/-- The base datagram built by the `NetTaskRegisterChallenge2` constructor. -/
def NetTaskRegisterChallenge2.toNetTask (x : NetTaskRegisterChallenge2) (payloadSize : Nat) :
    NetTask :=
  NetTask.mk' x.sessionId NET_TASK_NOCRYPTO x.sequenceNumber x.acknowledgementNumber
    x.fragmented NetTaskDatagramType.REGISTER_CHALLENGE2 payloadSize

/-- `NetTaskRegisterChallenge2.link` (source lines 521–524). -/
def NetTaskRegisterChallenge2.link (x : NetTaskRegisterChallenge2) (e : ECDHE) :
    NetTaskRegisterChallenge2 := { x with ecdhe := some e }

/-- `NetTaskRegisterChallenge2.serialize` (source lines 526–544): requires a
linked ECDHE but emits a cleartext layout that never uses it. -/
def NetTaskRegisterChallenge2.serialize (x : NetTaskRegisterChallenge2) :
    Except NTError (List Nat) :=
  match x.ecdhe with
  | none => .error .NotLinked
  | some _ =>
    let privHeader := (x.toNetTask 0).serializePrivateHeader
    let payloadSize := privHeader.length + x.challenge.length + 4
    .ok ((x.toNetTask payloadSize).serializePublicHeader ++ privHeader ++
      writeUInt32 x.challenge.length ++ x.challenge)

/-- `NetTaskRegisterChallenge2.deserialize` (source lines 546–561). -/
def NetTaskRegisterChallenge2.deserialize (buf : List Nat) (dg : NetTask) :
    Except NTError NetTaskRegisterChallenge2 :=
  if dg.type ≠ NetTaskDatagramType.REGISTER_CHALLENGE2 then .error .WrongType
  else do
    let (challengeLen, buf) ← readUInt32 buf
    let (challenge, _) ← readBytes challengeLen buf
    pure (NetTaskRegisterChallenge2.mk' dg.sessionId dg.sequenceNumber
      dg.acknowledgementNumber dg.fragmented challenge)

/-! ## Variant: `NetTaskPushSchemas` (source lines 565–685) -/

structure NetTaskPushSchemas where
  sessionId : List Nat
  sequenceNumber : Nat
  acknowledgementNumber : Nat
  fragmented : Bool
  spack : SchemasPayload
  ecdhe : Option ECDHE
deriving DecidableEq, Repr

/-- The `NetTaskPushSchemas` constructor (source lines 570–592):
`cryptoMark = CC`; no ECDHE is linked yet. -/
def NetTaskPushSchemas.mk' (sessionId : List Nat)
    (sequenceNumber acknowledgementNumber : Nat) (fragmented : Bool)
    (spack : SchemasPayload) : NetTaskPushSchemas :=
  { sessionId := sessionId, sequenceNumber := sequenceNumber,
    acknowledgementNumber := acknowledgementNumber, fragmented := fragmented,
    spack := spack, ecdhe := none }

/-- The base datagram built by the `NetTaskPushSchemas` constructor. -/
def NetTaskPushSchemas.toNetTask (x : NetTaskPushSchemas) (payloadSize : Nat) : NetTask :=
  NetTask.mk' x.sessionId NET_TASK_CRYPTO x.sequenceNumber x.acknowledgementNumber
    x.fragmented NetTaskDatagramType.PUSH_SCHEMAS payloadSize

/-- `NetTaskPushSchemas.link` (source lines 598–601). -/
def NetTaskPushSchemas.link (x : NetTaskPushSchemas) (e : ECDHE) : NetTaskPushSchemas :=
  { x with ecdhe := some e }

/-- The SPACK bytes computed at the start of `NetTaskPushSchemas.serialize`
(source lines 611–620): an unpacked task map is first packed. -/
def NetTaskPushSchemas.packBytes (x : NetTaskPushSchemas) : List Nat :=
  match x.spack with
  | .collection m =>
    serializeSPACK (packTaskSchemas (m.map (fun kv => (kv.1, getUnpacked kv.2))))
  | .packed p => serializeSPACK p

/-- `NetTaskPushSchemas.serialize` (source lines 603–656): inner encrypt of
the length-prefixed SPACK bytes, then an outer envelope over
PrivateHeader ‖ u32 len ‖ inner record; `payloadSize` is the envelope's
byte length. -/
def NetTaskPushSchemas.serialize (x : NetTaskPushSchemas) : Except NTError (List Nat) :=
  match x.ecdhe with
  | none => .error .NotLinked
  | some e =>
    let pack := x.packBytes
    let packCompound := writeUInt32 pack.length ++ pack
    let serENC := ECDHE.serializeEncryptedMessage (e.encrypt packCompound)
    let privHeader := (x.toNetTask 0).serializePrivateHeader
    let payload := privHeader ++ writeUInt32 serENC.length ++ serENC
    let envelope := ECDHE.serializeEncryptedMessage (e.envelope payload)
    let payloadSize := envelope.length
    .ok ((x.toNetTask payloadSize).serializePublicHeader ++ envelope)

/-- `NetTaskPushSchemas.deserialize` (source lines 658–684).  Note the
constructor call on source line 683: sequence number and acknowledgement
number are the literal `123123` and the fragmented flag is the literal
`true`, not the values carried by `dg`. -/
def NetTaskPushSchemas.deserialize (buf : List Nat) (ecdhe : ECDHE) (dg : NetTask) :
    Except NTError NetTaskPushSchemas :=
  if dg.type ≠ NetTaskDatagramType.PUSH_SCHEMAS then .error .WrongType
  else do
    let (serEncLen, buf) ← readUInt32 buf
    let (serEnc, _) ← readBytes serEncLen buf
    let desMessage ← ECDHE.deserializeEncryptedMessage serEnc
    let message ← ecdhe.decrypt desMessage
    match (do
      let (spackLen, _) ← readUInt32 message
      let rawSpack := (message.drop 4).take spackLen
      let spack ← deserializeSPACK rawSpack
      pure (unpackTaskSchemas spack) : Except NTError (List (List Nat × Nat))) with
    | .error e => .error (.MalformedPayload e)
    | .ok tasks =>
      pure (NetTaskPushSchemas.mk' dg.sessionId 123123 123123 true (.collection tasks))

/-! ## Variant: `NetTaskMetric` (source lines 687–813) -/

structure NetTaskMetric where
  sessionId : List Nat
  sequenceNumber : Nat
  acknowledgementNumber : Nat
  fragmented : Bool
  spack : Nat
  taskId : List Nat
  task : Option Nat
  ecdhe : Option ECDHE
deriving DecidableEq, Repr

/-- The `NetTaskMetric` constructor (source lines 693–717): `cryptoMark = CC`;
no ECDHE is linked yet. -/
def NetTaskMetric.mk' (sessionId : List Nat) (sequenceNumber acknowledgementNumber : Nat)
    (fragmented : Bool) (spack : Nat) (taskId : List Nat) (task : Option Nat) :
    NetTaskMetric :=
  { sessionId := sessionId, sequenceNumber := sequenceNumber,
    acknowledgementNumber := acknowledgementNumber, fragmented := fragmented,
    spack := spack, taskId := taskId, task := task, ecdhe := none }

/-- The base datagram built by the `NetTaskMetric` constructor. -/
def NetTaskMetric.toNetTask (x : NetTaskMetric) (payloadSize : Nat) : NetTask :=
  NetTask.mk' x.sessionId NET_TASK_CRYPTO x.sequenceNumber x.acknowledgementNumber
    x.fragmented NetTaskDatagramType.SEND_METRICS payloadSize

/-- `NetTaskMetric.link` (source lines 723–726). -/
def NetTaskMetric.link (x : NetTaskMetric) (e : ECDHE) : NetTaskMetric :=
  { x with ecdhe := some e }

/-- The inner cleartext built by `NetTaskMetric.serialize` (source lines
733–742): `taskLen.writeUInt32BE(this.taskId.length)` writes the UTF-16
code-unit count, while `Buffer.from(this.taskId, "utf8")` contributes the
UTF-8 bytes. -/
def NetTaskMetric.packCompound (x : NetTaskMetric) : List Nat :=
  let pack := serializeTaskMetric x.spack x.task
  writeUInt32 (utf16Length x.taskId) ++ utf8Encode x.taskId ++
    writeUInt32 pack.length ++ pack

/-- `NetTaskMetric.serialize` (source lines 728–768): same double-AEAD
layout as `NetTaskPushSchemas.serialize`. -/
def NetTaskMetric.serialize (x : NetTaskMetric) : Except NTError (List Nat) :=
  match x.ecdhe with
  | none => .error .NotLinked
  | some e =>
    let serENC := ECDHE.serializeEncryptedMessage (e.encrypt x.packCompound)
    let privHeader := (x.toNetTask 0).serializePrivateHeader
    let payload := privHeader ++ writeUInt32 serENC.length ++ serENC
    let envelope := ECDHE.serializeEncryptedMessage (e.envelope payload)
    let payloadSize := envelope.length
    .ok ((x.toNetTask payloadSize).serializePublicHeader ++ envelope)

/-- `NetTaskMetric.deserialize` (source lines 770–812).  The `try` block's
failures — including the missing-descriptor failure of
`deserializeTaskMetric` on an unknown `taskId` — are all rethrown as the
malformed-payload error (source lines 799–801); the fragmented flag of the
result is the literal `true` (source line 807). -/
def NetTaskMetric.deserialize (buf : List Nat) (ecdhe : ECDHE) (dg : NetTask)
    (configTasks : List (List Nat × Nat)) : Except NTError NetTaskMetric :=
  if dg.type ≠ NetTaskDatagramType.SEND_METRICS then .error .WrongType
  else do
    let (serEncLen, buf) ← readUInt32 buf
    let (serEnc, _) ← readBytes serEncLen buf
    let desMessage ← ECDHE.deserializeEncryptedMessage serEnc
    let message ← ecdhe.decrypt desMessage
    match (do
      let (taskIdLen, m) ← readUInt32 message
      let (taskIdBytes, m) ← readBytes taskIdLen m
      let taskId := utf8Decode taskIdBytes
      let (spackLen, m) ← readUInt32 m
      let (rawSpack, _) ← readBytes spackLen m
      let metrics ← deserializeTaskMetric rawSpack (configTasks.lookup taskId)
      pure (taskId, metrics) : Except NTError (List Nat × Nat)) with
    | .error e => .error (.MalformedPayload e)
    | .ok (taskId, metrics) =>
      pure (NetTaskMetric.mk' dg.sessionId dg.sequenceNumber dg.acknowledgementNumber
        true metrics taskId (configTasks.lookup taskId))

/-! ## Receiver pipelines

Modelled from the spec: the dispatching caller is outside `src/`.  Spec §5:
the caller hands the bytes to `verifySignature`, `deserializePublicHeader`,
`deserializePrivateHeader`, then dispatches on `type`; spec §4.4: for
encrypted datagrams it first opens the outer envelope and reads the private
header from the envelope plaintext. -/

/-- Header pipeline for cleartext (`NC`) datagrams: signature, public
header, then private header from the remaining cleartext bytes. -/
def pipelineHeadersNC (bs : List Nat) : Except NTError (NetTask × List Nat) := do
  let (sigOk, buf) ← NetTask.verifySignature bs
  if ¬ sigOk then throw .InvalidSignature
  else
    let (ph, buf) ← NetTask.deserializePublicHeader buf
    NetTask.deserializePrivateHeader buf ph

/-- Header pipeline for encrypted (`CC`) datagrams: signature, public
header, then `payloadSize` bytes of outer AEAD record, opened with the
session's envelope context; the private header is read from the plaintext. -/
def pipelineHeadersCC (e : ECDHE) (bs : List Nat) : Except NTError (NetTask × List Nat) := do
  let (sigOk, buf) ← NetTask.verifySignature bs
  if ¬ sigOk then throw .InvalidSignature
  else
    let (ph, buf) ← NetTask.deserializePublicHeader buf
    let (outerBytes, _) ← readBytes ph.payloadSize buf
    let outer ← ECDHE.deserializeEncryptedMessage outerBytes
    let plain ← e.openEnvelope outer
    NetTask.deserializePrivateHeader plain ph

/-! ## Per-variant deserialization pipelines and sample data

The per-variant pipelines compose the header pipeline with the variant's
static `deserialize`, as the dispatching caller does (spec §5).  The sample
values below exercise the theorems at concrete inputs. -/

def registerPipeline (bs : List Nat) : Except NTError NetTaskRegister := do
  let (dg, buf) ← pipelineHeadersNC bs
  NetTaskRegister.deserialize buf dg

def registerChallengePipeline (bs : List Nat) : Except NTError NetTaskRegisterChallenge := do
  let (dg, buf) ← pipelineHeadersNC bs
  NetTaskRegisterChallenge.deserialize buf dg

def registerChallenge2Pipeline (bs : List Nat) : Except NTError NetTaskRegisterChallenge2 := do
  let (dg, buf) ← pipelineHeadersNC bs
  NetTaskRegisterChallenge2.deserialize buf dg

/-- Wellformedness of a task collection: all encoded numbers fit in a u32. -/
def spackWF (m : SPACKTaskCollectionPacked) : Prop :=
  m.length < 4294967296 ∧ ∀ kv ∈ m, kv.1.length < 4294967296 ∧ kv.2 < 4294967296

instance (m : SPACKTaskCollectionPacked) : Decidable (spackWF m) := by
  unfold spackWF; infer_instance

/-- The entry section of `serializeSPACK`, in right-associated form. -/
def spackEntriesBytes : SPACKTaskCollectionPacked → List Nat
  | [] => []
  | kv :: tl => writeUInt32 kv.1.length ++ (kv.1 ++ (writeUInt32 kv.2 ++ spackEntriesBytes tl))

/-- ASCII code points (the only ones whose UTF-8 and UTF-16 sizes agree). -/
def asciiOnly (s : List Nat) : Prop := ∀ c ∈ s, c < 128

instance (s : List Nat) : Decidable (asciiOnly s) := by
  unfold asciiOnly; infer_instance

def pushSchemasPipeline (e : ECDHE) (bs : List Nat) : Except NTError NetTaskPushSchemas := do
  let (dg, buf) ← pipelineHeadersCC e bs
  NetTaskPushSchemas.deserialize buf e dg

def metricPipeline (e : ECDHE) (configTasks : List (List Nat × Nat)) (bs : List Nat) :
    Except NTError NetTaskMetric := do
  let (dg, buf) ← pipelineHeadersCC e bs
  NetTaskMetric.deserialize buf e dg configTasks

/-- The exactness property claimed for `payloadSize`: the u32 read at offset
`4 + HASH_LEN + 2` of the wire bytes equals the byte count of everything
after the public header, i.e. the total length minus `4 + HASH_LEN + 2 + 4`. -/
def payloadSizeExact (out : List Nat) : Prop :=
  readUInt32 (out.drop (4 + HASH_LEN + 2)) =
    .ok (out.length - (4 + HASH_LEN + 2 + 4), out.drop (4 + HASH_LEN + 2 + 4)) ∧
  (out.drop (4 + HASH_LEN + 2 + 4)).length = out.length - (4 + HASH_LEN + 2 + 4)

deriving instance DecidableEq for Except

def sid0 : List Nat := List.replicate HASH_LEN 0

def eW : ECDHE := { key := [1, 2] }

def cexPushSchemas : NetTaskPushSchemas :=
  { sessionId := sid0, sequenceNumber := 5, acknowledgementNumber := 6, fragmented := false,
    spack := .collection [([97], 1)], ecdhe := some eW }

def wReg : NetTaskRegister :=
  { sessionId := sid0, sequenceNumber := 1, acknowledgementNumber := 2, fragmented := true,
    publicKey := [9, 8] }

def wChal : NetTaskRegisterChallenge :=
  { sessionId := sid0, sequenceNumber := 3, acknowledgementNumber := 4, fragmented := false,
    publicKey := [1], challenge := [2, 3], salt := [4] }

def wChal2 : NetTaskRegisterChallenge2 :=
  { sessionId := sid0, sequenceNumber := 5, acknowledgementNumber := 6, fragmented := true,
    challenge := [7, 8], ecdhe := some eW }

def wPS : NetTaskPushSchemas :=
  { sessionId := sid0, sequenceNumber := 7, acknowledgementNumber := 8, fragmented := false,
    spack := .collection [([97], 42), ([98, 99], 7)], ecdhe := some eW }

def wMet : NetTaskMetric :=
  { sessionId := sid0, sequenceNumber := 9, acknowledgementNumber := 10, fragmented := true,
    spack := 77, taskId := [97, 98], task := some 3, ecdhe := some eW }

def wCfg : List (List Nat × Nat) := [([97, 98], 3)]

def cexMetric : NetTaskMetric :=
  { sessionId := sid0, sequenceNumber := 1, acknowledgementNumber := 2, fragmented := false,
    spack := 9, taskId := [99], task := some 4, ecdhe := some eW }

def phW : NetTaskPublicHeader :=
  { cryptoMark := [78, 67], sessionId := [3], payloadSize := 21 }

/-! ## Lemmas

Codec round-trip lemmas, header-pipeline lemmas, and the per-variant
round-trip lemmas used by the claim theorems below. -/

theorem readBytes_exact (xs rest : List Nat) :
    readBytes xs.length (xs ++ rest) = .ok (xs, rest) := by
  simp [readBytes, List.take_left, List.drop_left]

theorem readBytes_of_length (n : Nat) (xs rest : List Nat) (h : xs.length = n) :
    readBytes n (xs ++ rest) = .ok (xs, rest) := by
  subst h; exact readBytes_exact xs rest

theorem readUInt32_writeUInt32 (n : Nat) (rest : List Nat) (h : n < 4294967296) :
    readUInt32 (writeUInt32 n ++ rest) = .ok (n, rest) := by
  simp only [writeUInt32, List.cons_append, List.nil_append, readUInt32]
  congr 2
  omega

theorem readInt8_writeBool8 (b : Bool) (rest : List Nat) :
    readInt8 (writeBool8 b ++ rest) = .ok (if b then 1 else 0, rest) := by
  cases b <;> simp [writeBool8, readInt8]

theorem exceptOkBind {α β : Type} (a : α) (f : α → Except NTError β) :
    ((Except.ok a : Except NTError α) >>= f) = f a := rfl

theorem exceptErrBind {α β : Type} (e : NTError) (f : α → Except NTError β) :
    ((Except.error e : Except NTError α) >>= f) = .error e := rfl

theorem exceptThrow {α : Type} (e : NTError) : (throw e : Except NTError α) = .error e := rfl

theorem exceptPure {α : Type} (a : α) : (pure a : Except NTError α) = .ok a := rfl

theorem exceptMapOk {α β : Type} (f : α → β) (a : α) :
    (f <$> (Except.ok a : Except NTError α)) = .ok (f a) := rfl

theorem writeUInt32_length (n : Nat) : (writeUInt32 n).length = 4 := rfl

theorem decide_if_one_zero (b : Bool) : (decide ((if b then (1 : Nat) else 0) ≠ 0)) = b := by
  cases b <;> rfl

theorem verifySignature_append (rest : List Nat) :
    NetTask.verifySignature (NET_TASK_SIGNATURE ++ rest) = .ok (true, rest) := by
  simp [NetTask.verifySignature, readBytes_of_length 4 NET_TASK_SIGNATURE rest rfl,
    exceptOkBind]

theorem deserializePublicHeader_append (sid mark : List Nat) (ps : Nat) (rest : List Nat)
    (hsid : sid.length = HASH_LEN) (hmark : mark.length = 2) (hps : ps < 4294967296) :
    NetTask.deserializePublicHeader (sid ++ (mark ++ (writeUInt32 ps ++ rest))) =
      if NET_TASK_CRYPTO ≠ mark ∧ NET_TASK_NOCRYPTO ≠ mark then .error .InvalidCryptoMark
      else .ok ({ sessionId := sid, cryptoMark := mark, payloadSize := ps }, rest) := by
  have h2 : mark.length = NET_TASK_CRYPTO.length := by simp [NET_TASK_CRYPTO, hmark]
  simp only [NetTask.deserializePublicHeader,
    readBytes_of_length _ _ _ hsid, exceptOkBind,
    readBytes_of_length _ _ _ h2, readUInt32_writeUInt32 ps rest hps,
    exceptThrow, exceptPure, exceptMapOk]

theorem deserializePrivateHeader_append (v seq ack fb ty : Nat) (rest : List Nat)
    (ph : NetTaskPublicHeader) (hv : v < 4294967296) (hseq : seq < 4294967296)
    (hack : ack < 4294967296) (hfb : fb < 256) (hty : ty < 4294967296) :
    NetTask.deserializePrivateHeader
        (writeUInt32 v ++ (writeUInt32 seq ++ (writeUInt32 ack ++
          ([fb] ++ (writeUInt32 ty ++ rest))))) ph =
      if v = NET_TASK_VERSION then
        .ok (NetTask.mk' ph.sessionId ph.cryptoMark seq ack (fb ≠ 0) ty ph.payloadSize, rest)
      else .error .InvalidVersion := by
  simp only [NetTask.deserializePrivateHeader, readUInt32_writeUInt32 v _ hv,
    exceptOkBind, exceptThrow, exceptPure, exceptMapOk, List.singleton_append,
    readUInt32_writeUInt32 seq _ hseq, readUInt32_writeUInt32 ack _ hack, readInt8,
    readUInt32_writeUInt32 ty _ hty]
  by_cases hveq : v = NET_TASK_VERSION
  · have : (decide ((if fb < 128 then (fb : Int) else (fb : Int) - 256) ≠ 0)) =
        decide (fb ≠ 0) := by
      by_cases h0 : fb = 0
      · simp [h0]
      · simp [h0]
        omega
    simp [hveq, this]
  · simp [hveq]

theorem pipelineHeadersNC_append (sid mark : List Nat) (ps v seq ack fb ty : Nat)
    (rest : List Nat) (hsid : sid.length = HASH_LEN) (hmark : mark.length = 2)
    (hmk : ¬(NET_TASK_CRYPTO ≠ mark ∧ NET_TASK_NOCRYPTO ≠ mark))
    (hps : ps < 4294967296) (hv : v < 4294967296) (hseq : seq < 4294967296)
    (hack : ack < 4294967296) (hfb : fb < 256) (hty : ty < 4294967296) :
    pipelineHeadersNC (NET_TASK_SIGNATURE ++ (sid ++ (mark ++ (writeUInt32 ps ++
        (writeUInt32 v ++ (writeUInt32 seq ++ (writeUInt32 ack ++
          ([fb] ++ (writeUInt32 ty ++ rest))))))))) =
      if v = NET_TASK_VERSION then
        .ok (NetTask.mk' sid mark seq ack (fb ≠ 0) ty ps, rest)
      else .error .InvalidVersion := by
  simp only [pipelineHeadersNC, verifySignature_append, exceptOkBind]
  rw [deserializePublicHeader_append _ _ _ _ hsid hmark hps]
  simp only [if_neg hmk, exceptOkBind, not_true, if_false]
  rw [deserializePrivateHeader_append _ _ _ _ _ _ _ hv hseq hack hfb hty]

theorem readBytes_all (xs : List Nat) : readBytes xs.length xs = .ok (xs, []) := by
  have h := readBytes_of_length xs.length xs [] rfl
  rwa [List.append_nil] at h

theorem register_roundtrip (x : NetTaskRegister)
    (hsid : x.sessionId.length = HASH_LEN)
    (hseq : x.sequenceNumber < 4294967296)
    (hack : x.acknowledgementNumber < 4294967296)
    (hpk : x.publicKey.length + 21 < 4294967296) :
    registerPipeline x.serialize = .ok x := by
  simp only [registerPipeline, NetTaskRegister.serialize, NetTask.serializePublicHeader,
    NetTask.serializePrivateHeader, NetTaskRegister.toNetTask, NetTask.mk', writeBool8,
    List.append_assoc]
  rw [pipelineHeadersNC_append x.sessionId NET_TASK_NOCRYPTO _ _ _ _ _ _ _ hsid rfl
    (by simp [NET_TASK_CRYPTO, NET_TASK_NOCRYPTO])
    (by simp [writeUInt32, writeBool8]; omega)
    (by decide) hseq hack (by split <;> omega) (by decide)]
  simp only [NET_TASK_VERSION, if_pos, exceptOkBind, NetTaskRegister.deserialize,
    NetTask.mk', decide_if_one_zero, NetTaskDatagramType.REQUEST_REGISTER, ne_eq,
    not_true_eq_false, reduceIte]
  rw [readUInt32_writeUInt32 _ _ (by omega), exceptOkBind, readBytes_all]
  simp [exceptOkBind, exceptPure]

theorem registerChallenge_roundtrip (x : NetTaskRegisterChallenge)
    (hsid : x.sessionId.length = HASH_LEN)
    (hseq : x.sequenceNumber < 4294967296)
    (hack : x.acknowledgementNumber < 4294967296)
    (hlen : x.publicKey.length + x.challenge.length + x.salt.length + 29 < 4294967296) :
    registerChallengePipeline x.serialize = .ok x := by
  simp only [registerChallengePipeline, NetTaskRegisterChallenge.serialize,
    NetTask.serializePublicHeader, NetTask.serializePrivateHeader,
    NetTaskRegisterChallenge.toNetTask, NetTask.mk', writeBool8, List.append_assoc]
  rw [pipelineHeadersNC_append x.sessionId NET_TASK_NOCRYPTO _ _ _ _ _ _ _ hsid rfl
    (by simp [NET_TASK_CRYPTO, NET_TASK_NOCRYPTO])
    (by simp [writeUInt32, writeBool8]; omega)
    (by decide) hseq hack (by split <;> omega) (by decide)]
  simp only [NET_TASK_VERSION, if_pos, exceptOkBind, NetTaskRegisterChallenge.deserialize,
    NetTask.mk', decide_if_one_zero, NetTaskDatagramType.REGISTER_CHALLENGE, ne_eq,
    not_true_eq_false, reduceIte]
  rw [readUInt32_writeUInt32 _ _ (by omega), exceptOkBind,
    readBytes_of_length _ _ _ rfl, exceptOkBind,
    readUInt32_writeUInt32 _ _ (by omega), exceptOkBind,
    readBytes_of_length _ _ _ rfl, exceptOkBind,
    readUInt32_writeUInt32 _ _ (by omega), exceptOkBind,
    readBytes_all]
  simp [exceptOkBind, exceptPure]

theorem registerChallenge2_roundtrip (x : NetTaskRegisterChallenge2) (e : ECDHE)
    (hlink : x.ecdhe = some e)
    (hsid : x.sessionId.length = HASH_LEN)
    (hseq : x.sequenceNumber < 4294967296)
    (hack : x.acknowledgementNumber < 4294967296)
    (hlen : x.challenge.length + 21 < 4294967296) :
    (do
      let out ← x.serialize
      registerChallenge2Pipeline out : Except NTError NetTaskRegisterChallenge2) =
      .ok { x with ecdhe := none } := by
  simp only [NetTaskRegisterChallenge2.serialize, hlink, exceptOkBind]
  simp only [registerChallenge2Pipeline, NetTask.serializePublicHeader,
    NetTask.serializePrivateHeader, NetTaskRegisterChallenge2.toNetTask, NetTask.mk',
    writeBool8, List.append_assoc]
  rw [pipelineHeadersNC_append x.sessionId NET_TASK_NOCRYPTO _ _ _ _ _ _ _ hsid rfl
    (by simp [NET_TASK_CRYPTO, NET_TASK_NOCRYPTO])
    (by simp [writeUInt32, writeBool8]; omega)
    (by decide) hseq hack (by split <;> omega) (by decide)]
  simp only [NET_TASK_VERSION, if_pos, exceptOkBind, NetTaskRegisterChallenge2.deserialize,
    NetTask.mk', decide_if_one_zero, NetTaskDatagramType.REGISTER_CHALLENGE2, ne_eq,
    not_true_eq_false, reduceIte]
  rw [readUInt32_writeUInt32 _ _ (by omega), exceptOkBind, readBytes_all]
  simp [exceptOkBind, exceptPure, NetTaskRegisterChallenge2.mk']

theorem readUInt32_writeUInt32_nil (n : Nat) (h : n < 4294967296) :
    readUInt32 (writeUInt32 n) = .ok (n, []) := by
  have h2 := readUInt32_writeUInt32 n [] h
  rwa [List.append_nil] at h2

theorem openEnvelope_envelope (e : ECDHE) (p : List Nat) :
    e.openEnvelope (e.envelope p) = .ok p := by
  simp [ECDHE.openEnvelope, ECDHE.envelope]

theorem decrypt_encrypt (e : ECDHE) (p : List Nat) :
    e.decrypt (e.encrypt p) = .ok p := by
  simp [ECDHE.decrypt, ECDHE.encrypt]

theorem deserialize_serializeEncryptedMessage (m : EncryptedMessage)
    (hiv : m.iv.length < 4294967296) (htag : m.tag.length < 4294967296)
    (hct : m.ciphertext.length < 4294967296) :
    ECDHE.deserializeEncryptedMessage (ECDHE.serializeEncryptedMessage m) = .ok m := by
  simp only [ECDHE.serializeEncryptedMessage, ECDHE.deserializeEncryptedMessage,
    List.append_assoc]
  rw [readUInt32_writeUInt32 _ _ hiv, exceptOkBind, readBytes_of_length _ _ _ rfl,
    exceptOkBind, readUInt32_writeUInt32 _ _ htag, exceptOkBind,
    readBytes_of_length _ _ _ rfl, exceptOkBind, readUInt32_writeUInt32 _ _ hct,
    exceptOkBind, readBytes_all]
  simp [exceptOkBind, exceptPure]

theorem pipelineHeadersCC_append (e : ECDHE) (sid : List Nat) (v seq ack fb ty : Nat)
    (rest : List Nat) (hsid : sid.length = HASH_LEN)
    (hkey : e.key.length < 4294967296)
    (hpl : (writeUInt32 v ++ (writeUInt32 seq ++ (writeUInt32 ack ++
      ([fb] ++ (writeUInt32 ty ++ rest))))).length < 4294967296)
    (henv : (ECDHE.serializeEncryptedMessage (e.envelope
      (writeUInt32 v ++ (writeUInt32 seq ++ (writeUInt32 ack ++
        ([fb] ++ (writeUInt32 ty ++ rest))))))).length < 4294967296)
    (hv : v < 4294967296) (hseq : seq < 4294967296) (hack : ack < 4294967296)
    (hfb : fb < 256) (hty : ty < 4294967296) :
    pipelineHeadersCC e (NET_TASK_SIGNATURE ++ (sid ++ (NET_TASK_CRYPTO ++
        (writeUInt32 (ECDHE.serializeEncryptedMessage (e.envelope
          (writeUInt32 v ++ (writeUInt32 seq ++ (writeUInt32 ack ++
            ([fb] ++ (writeUInt32 ty ++ rest))))))).length ++
          ECDHE.serializeEncryptedMessage (e.envelope
            (writeUInt32 v ++ (writeUInt32 seq ++ (writeUInt32 ack ++
              ([fb] ++ (writeUInt32 ty ++ rest)))))))))) =
      if v = NET_TASK_VERSION then
        .ok (NetTask.mk' sid NET_TASK_CRYPTO seq ack (fb ≠ 0) ty
          (ECDHE.serializeEncryptedMessage (e.envelope
            (writeUInt32 v ++ (writeUInt32 seq ++ (writeUInt32 ack ++
              ([fb] ++ (writeUInt32 ty ++ rest))))))).length, rest)
      else .error .InvalidVersion := by
  simp only [pipelineHeadersCC, verifySignature_append, exceptOkBind]
  rw [deserializePublicHeader_append sid NET_TASK_CRYPTO _ _ hsid rfl henv]
  have hm : ¬(NET_TASK_CRYPTO ≠ NET_TASK_CRYPTO ∧ NET_TASK_NOCRYPTO ≠ NET_TASK_CRYPTO) := by
    decide
  rw [if_neg hm, exceptOkBind]
  rw [readBytes_all, exceptOkBind, deserialize_serializeEncryptedMessage _
    (by simp [ECDHE.envelope]) (by simpa [ECDHE.envelope] using hkey)
    (by simpa [ECDHE.envelope] using hpl),
    exceptOkBind, openEnvelope_envelope, exceptOkBind]
  rw [deserializePrivateHeader_append _ _ _ _ _ _ _ hv hseq hack hfb hty]
  simp

theorem serializeSPACK_eq (m : SPACKTaskCollectionPacked) :
    serializeSPACK m = writeUInt32 m.length ++ spackEntriesBytes m := by
  simp only [serializeSPACK, List.append_cancel_left_eq]
  induction m with
  | nil => rfl
  | cons kv tl ih =>
    show (writeUInt32 kv.1.length ++ kv.1 ++ writeUInt32 kv.2) ++
        (List.map (fun kv => writeUInt32 kv.1.length ++ kv.1 ++ writeUInt32 kv.2) tl).flatten =
      spackEntriesBytes (kv :: tl)
    rw [ih, spackEntriesBytes]
    simp [List.append_assoc]

theorem deserializeSPACKEntries_append (m : SPACKTaskCollectionPacked) (rest : List Nat)
    (hm : ∀ kv ∈ m, kv.1.length < 4294967296 ∧ kv.2 < 4294967296) :
    deserializeSPACKEntries m.length (spackEntriesBytes m ++ rest) = .ok (m, rest) := by
  induction m generalizing rest with
  | nil => simp [deserializeSPACKEntries, spackEntriesBytes]
  | cons kv tl ih =>
    have hkv := hm kv (by simp)
    simp only [spackEntriesBytes, List.length_cons, List.append_assoc,
      deserializeSPACKEntries]
    rw [readUInt32_writeUInt32 _ _ hkv.1, exceptOkBind, readBytes_of_length _ _ _ rfl,
      exceptOkBind, readUInt32_writeUInt32 _ _ hkv.2, exceptOkBind,
      ih _ (fun d hd => hm d (List.mem_cons_of_mem _ hd)), exceptOkBind]
    rfl

theorem deserializeSPACK_serializeSPACK (m : SPACKTaskCollectionPacked) (h : spackWF m) :
    deserializeSPACK (serializeSPACK m) = .ok m := by
  have h2 := deserializeSPACKEntries_append m [] h.2
  rw [List.append_nil] at h2
  rw [serializeSPACK_eq, deserializeSPACK]
  simp only [readUInt32_writeUInt32 _ _ h.1, exceptOkBind, h2, exceptPure]

theorem utf8Encode_ascii (s : List Nat) (h : asciiOnly s) : utf8Encode s = s := by
  induction s with
  | nil => rfl
  | cons c tl ih =>
    have hc := h c (by simp)
    have ih2 := ih (fun d hd => h d (List.mem_cons_of_mem _ hd))
    show utf8EncodeChar c ++ utf8Encode tl = c :: tl
    simp [utf8EncodeChar, if_pos hc, ih2]

theorem utf16Length_ascii (s : List Nat) (h : asciiOnly s) : utf16Length s = s.length := by
  induction s with
  | nil => rfl
  | cons c tl ih =>
    have hc := h c (by simp)
    have ih2 := ih (fun d hd => h d (List.mem_cons_of_mem _ hd))
    show utf16Units c + utf16Length tl = tl.length + 1
    simp only [utf16Units, if_pos (show c < 65536 by omega), ih2]
    omega

set_option maxRecDepth 4096 in

theorem utf8DecodeGo_ascii :
    ∀ (s : List Nat) (fuel : Nat), asciiOnly s → s.length ≤ fuel →
      utf8DecodeGo fuel s = s := by
  intro s
  induction s with
  | nil => intro fuel h hf; cases fuel <;> rfl
  | cons c tl ih =>
    intro fuel h hf
    have hc := h c (by simp)
    cases fuel with
    | zero => simp at hf
    | succ f =>
      have ih2 := ih f (fun d hd => h d (List.mem_cons_of_mem _ hd)) (by simp at hf; omega)
      rw [utf8DecodeGo.eq_def]
      simp [hc, ih2]

theorem utf8Decode_ascii (s : List Nat) (h : asciiOnly s) : utf8Decode s = s :=
  utf8DecodeGo_ascii s s.length h le_rfl

theorem serializeEncryptedMessage_length (m : EncryptedMessage) :
    (ECDHE.serializeEncryptedMessage m).length =
      12 + m.iv.length + m.tag.length + m.ciphertext.length := by
  simp [ECDHE.serializeEncryptedMessage, writeUInt32]
  omega

theorem map_pair_eta (m : List (List Nat × Nat)) : m.map (fun kv => (kv.1, kv.2)) = m := by
  simp

theorem drop4_writeUInt32 (n : Nat) (l : List Nat) : (writeUInt32 n ++ l).drop 4 = l := rfl

theorem pushSchemas_roundtrip (x : NetTaskPushSchemas) (e : ECDHE)
    (m : List (List Nat × Nat))
    (hlink : x.ecdhe = some e) (hcoll : x.spack = .collection m)
    (hsid : x.sessionId.length = HASH_LEN)
    (hseq : x.sequenceNumber < 4294967296)
    (hack : x.acknowledgementNumber < 4294967296)
    (hm : spackWF m)
    (hbound : 2 * e.key.length + (serializeSPACK m).length + 60 < 4294967296) :
    (do
      let out ← x.serialize
      pushSchemasPipeline e out : Except NTError NetTaskPushSchemas) =
      .ok { x with sequenceNumber := 123123, acknowledgementNumber := 123123,
                   fragmented := true, ecdhe := none } := by
  have hpack : x.packBytes = serializeSPACK m := by
    simp [NetTaskPushSchemas.packBytes, hcoll, packTaskSchemas, getUnpacked, map_pair_eta]
  simp only [NetTaskPushSchemas.serialize, hlink, hpack, exceptOkBind,
    NetTask.serializePublicHeader, NetTask.serializePrivateHeader,
    NetTaskPushSchemas.toNetTask, NetTask.mk', writeBool8, List.append_assoc,
    pushSchemasPipeline]
  rw [pipelineHeadersCC_append e x.sessionId _ _ _ _ _ _ hsid
    (by omega)
    (by simp [serializeEncryptedMessage_length, ECDHE.encrypt, writeUInt32]; omega)
    (by simp [serializeEncryptedMessage_length, ECDHE.encrypt, ECDHE.envelope, writeUInt32];
        omega)
    (by decide) hseq hack (by split <;> omega) (by decide)]
  simp only [NET_TASK_VERSION, if_pos, exceptOkBind, NetTaskPushSchemas.deserialize,
    NetTask.mk', decide_if_one_zero, NetTaskDatagramType.PUSH_SCHEMAS, ne_eq,
    not_true_eq_false, reduceIte]
  rw [readUInt32_writeUInt32 _ _
      (by simp [serializeEncryptedMessage_length, ECDHE.encrypt, writeUInt32]; omega),
    exceptOkBind, readBytes_all, exceptOkBind,
    deserialize_serializeEncryptedMessage _ (by simp [ECDHE.encrypt])
      (by simp [ECDHE.encrypt]; omega)
      (by simp [ECDHE.encrypt, writeUInt32]; omega),
    exceptOkBind, decrypt_encrypt, exceptOkBind]
  rw [readUInt32_writeUInt32 _ _ (by omega), exceptOkBind, drop4_writeUInt32,
    List.take_length, deserializeSPACK_serializeSPACK m hm, exceptOkBind]
  simp [exceptPure, unpackTaskSchemas, NetTaskPushSchemas.mk', hcoll]

theorem metric_roundtrip (x : NetTaskMetric) (e : ECDHE) (t : Nat)
    (configTasks : List (List Nat × Nat))
    (hlink : x.ecdhe = some e) (htask : x.task = some t)
    (hcfg : configTasks.lookup x.taskId = x.task)
    (hascii : asciiOnly x.taskId)
    (hsid : x.sessionId.length = HASH_LEN)
    (hseq : x.sequenceNumber < 4294967296)
    (hack : x.acknowledgementNumber < 4294967296)
    (hspack : x.spack < 4294967296)
    (hbound : 2 * e.key.length + x.taskId.length + 70 < 4294967296) :
    (do
      let out ← x.serialize
      metricPipeline e configTasks out : Except NTError NetTaskMetric) =
      .ok { x with fragmented := true, ecdhe := none } := by
  have hcompound : x.packCompound =
      writeUInt32 x.taskId.length ++ (x.taskId ++
        (writeUInt32 (writeUInt32 x.spack).length ++ writeUInt32 x.spack)) := by
    simp [NetTaskMetric.packCompound, serializeTaskMetric, utf16Length_ascii _ hascii,
      utf8Encode_ascii _ hascii, List.append_assoc]
  simp only [NetTaskMetric.serialize, hlink, hcompound, exceptOkBind,
    NetTask.serializePublicHeader, NetTask.serializePrivateHeader,
    NetTaskMetric.toNetTask, NetTask.mk', writeBool8, List.append_assoc,
    metricPipeline]
  rw [pipelineHeadersCC_append e x.sessionId _ _ _ _ _ _ hsid
    (by omega)
    (by simp [serializeEncryptedMessage_length, ECDHE.encrypt, writeUInt32]; omega)
    (by simp [serializeEncryptedMessage_length, ECDHE.encrypt, ECDHE.envelope, writeUInt32];
        omega)
    (by decide) hseq hack (by split <;> omega) (by decide)]
  simp only [NET_TASK_VERSION, if_pos, exceptOkBind, NetTaskMetric.deserialize,
    NetTask.mk', decide_if_one_zero, NetTaskDatagramType.SEND_METRICS, ne_eq,
    not_true_eq_false, reduceIte]
  rw [readUInt32_writeUInt32 _ _
      (by simp [serializeEncryptedMessage_length, ECDHE.encrypt, writeUInt32]; omega),
    exceptOkBind, readBytes_all, exceptOkBind,
    deserialize_serializeEncryptedMessage _ (by simp [ECDHE.encrypt])
      (by simp [ECDHE.encrypt]; omega)
      (by simp [ECDHE.encrypt, writeUInt32]; omega),
    exceptOkBind, decrypt_encrypt, exceptOkBind]
  rw [readUInt32_writeUInt32 _ _ (by omega), exceptOkBind,
    readBytes_of_length _ _ _ rfl, exceptOkBind]
  rw [utf8Decode_ascii _ hascii]
  rw [readUInt32_writeUInt32 _ _ (by simp [writeUInt32]), exceptOkBind, readBytes_all,
    exceptOkBind]
  rw [hcfg, htask]
  simp only [deserializeTaskMetric, readUInt32_writeUInt32_nil _ hspack, exceptOkBind,
    exceptPure]
  simp [NetTaskMetric.mk', hcfg, htask]

theorem payloadSizeExact_mk (sid mark : List Nat) (ps : Nat) (body : List Nat)
    (hsid : sid.length = HASH_LEN) (hmark : mark.length = 2)
    (hps : ps = body.length) (hlt : ps < 4294967296) :
    payloadSizeExact (NET_TASK_SIGNATURE ++ (sid ++ (mark ++ (writeUInt32 ps ++ body)))) := by
  have e1 : NET_TASK_SIGNATURE ++ (sid ++ (mark ++ (writeUInt32 ps ++ body))) =
      (NET_TASK_SIGNATURE ++ sid ++ mark) ++ (writeUInt32 ps ++ body) := by
    simp [List.append_assoc]
  have e2 : NET_TASK_SIGNATURE ++ (sid ++ (mark ++ (writeUInt32 ps ++ body))) =
      (NET_TASK_SIGNATURE ++ sid ++ mark ++ writeUInt32 ps) ++ body := by
    simp [List.append_assoc]
  have h38 : (NET_TASK_SIGNATURE ++ sid ++ mark).length = 4 + HASH_LEN + 2 := by
    simp [NET_TASK_SIGNATURE, hsid, hmark]
    omega
  have h42 : (NET_TASK_SIGNATURE ++ sid ++ mark ++ writeUInt32 ps).length =
      4 + HASH_LEN + 2 + 4 := by
    simp [NET_TASK_SIGNATURE, hsid, hmark, writeUInt32]
    omega
  have hdrop38 : (NET_TASK_SIGNATURE ++ (sid ++ (mark ++ (writeUInt32 ps ++ body)))).drop
      (4 + HASH_LEN + 2) = writeUInt32 ps ++ body := by
    rw [e1, List.drop_left' h38]
  have hdrop42 : (NET_TASK_SIGNATURE ++ (sid ++ (mark ++ (writeUInt32 ps ++ body)))).drop
      (4 + HASH_LEN + 2 + 4) = body := by
    rw [e2, List.drop_left' h42]
  have hlen : (NET_TASK_SIGNATURE ++ (sid ++ (mark ++ (writeUInt32 ps ++ body)))).length -
      (4 + HASH_LEN + 2 + 4) = ps := by
    simp [NET_TASK_SIGNATURE, hsid, hmark, writeUInt32, HASH_LEN] at *
    omega
  refine ⟨?_, ?_⟩
  · rw [hdrop38, hdrop42, hlen, readUInt32_writeUInt32 _ _ hlt]
  · rw [hdrop42, hlen, hps]

theorem metric_unknownTask (x : NetTaskMetric) (e : ECDHE)
    (configTasks : List (List Nat × Nat))
    (hlink : x.ecdhe = some e)
    (hcfg : configTasks.lookup x.taskId = none)
    (hascii : asciiOnly x.taskId)
    (hsid : x.sessionId.length = HASH_LEN)
    (hseq : x.sequenceNumber < 4294967296)
    (hack : x.acknowledgementNumber < 4294967296)
    (hbound : 2 * e.key.length + x.taskId.length + 70 < 4294967296) :
    (do
      let out ← x.serialize
      metricPipeline e configTasks out : Except NTError NetTaskMetric) =
      .error (.MalformedPayload .UnknownTask) := by
  have hcompound : x.packCompound =
      writeUInt32 x.taskId.length ++ (x.taskId ++
        (writeUInt32 (writeUInt32 x.spack).length ++ writeUInt32 x.spack)) := by
    simp [NetTaskMetric.packCompound, serializeTaskMetric, utf16Length_ascii _ hascii,
      utf8Encode_ascii _ hascii, List.append_assoc]
  simp only [NetTaskMetric.serialize, hlink, hcompound, exceptOkBind,
    NetTask.serializePublicHeader, NetTask.serializePrivateHeader,
    NetTaskMetric.toNetTask, NetTask.mk', writeBool8, List.append_assoc,
    metricPipeline]
  rw [pipelineHeadersCC_append e x.sessionId _ _ _ _ _ _ hsid
    (by omega)
    (by simp [serializeEncryptedMessage_length, ECDHE.encrypt, writeUInt32]; omega)
    (by simp [serializeEncryptedMessage_length, ECDHE.encrypt, ECDHE.envelope, writeUInt32];
        omega)
    (by decide) hseq hack (by split <;> omega) (by decide)]
  simp only [NET_TASK_VERSION, if_pos, exceptOkBind, NetTaskMetric.deserialize,
    NetTask.mk', decide_if_one_zero, NetTaskDatagramType.SEND_METRICS, ne_eq,
    not_true_eq_false, reduceIte]
  rw [readUInt32_writeUInt32 _ _
      (by simp [serializeEncryptedMessage_length, ECDHE.encrypt, writeUInt32]; omega),
    exceptOkBind, readBytes_all, exceptOkBind,
    deserialize_serializeEncryptedMessage _ (by simp [ECDHE.encrypt])
      (by simp [ECDHE.encrypt]; omega)
      (by simp [ECDHE.encrypt, writeUInt32]; omega),
    exceptOkBind, decrypt_encrypt, exceptOkBind]
  rw [readUInt32_writeUInt32 _ _ (by omega), exceptOkBind,
    readBytes_of_length _ _ _ rfl, exceptOkBind]
  rw [utf8Decode_ascii _ hascii]
  rw [readUInt32_writeUInt32 _ _ (by simp [writeUInt32]), exceptOkBind, readBytes_all,
    exceptOkBind]
  rw [hcfg]
  simp [deserializeTaskMetric, exceptErrBind]

theorem utf8EncodeChar_length_eq_iff (c : Nat) :
    ((utf8EncodeChar c).length = utf16Units c) ↔ c < 128 := by
  unfold utf8EncodeChar utf16Units
  split_ifs <;> simp_all <;> omega

theorem utf16Units_le_utf8EncodeChar_length (c : Nat) :
    utf16Units c ≤ (utf8EncodeChar c).length := by
  unfold utf8EncodeChar utf16Units
  split_ifs <;> simp_all
  omega

theorem utf16Length_le_utf8Encode_length (s : List Nat) :
    utf16Length s ≤ (utf8Encode s).length := by
  induction s with
  | nil => simp [utf16Length, utf8Encode]
  | cons c tl ih =>
    have hc := utf16Units_le_utf8EncodeChar_length c
    have h1 : utf16Length (c :: tl) = utf16Units c + utf16Length tl := by
      simp [utf16Length]
    have h2 : (utf8Encode (c :: tl)).length =
        (utf8EncodeChar c).length + (utf8Encode tl).length := by
      simp [utf8Encode]
    omega

theorem utf8_eq_utf16_iff_ascii (s : List Nat) :
    (utf8Encode s).length = utf16Length s ↔ asciiOnly s := by
  induction s with
  | nil => simp [utf16Length, utf8Encode, asciiOnly]
  | cons c tl ih =>
    have hc := utf16Units_le_utf8EncodeChar_length c
    have htl := utf16Length_le_utf8Encode_length tl
    have h1 : utf16Length (c :: tl) = utf16Units c + utf16Length tl := by
      simp [utf16Length]
    have h2 : (utf8Encode (c :: tl)).length =
        (utf8EncodeChar c).length + (utf8Encode tl).length := by
      simp [utf8Encode]
    have h3 : asciiOnly (c :: tl) ↔ c < 128 ∧ asciiOnly tl := by
      simp [asciiOnly]
    rw [h1, h2, h3, ← ih, ← utf8EncodeChar_length_eq_iff c]
    omega

/-! ## Claim theorems -/

/-- C1 counterexample: running the full serialize→deserialize pipeline on a
concrete linked `NetTaskPushSchemas` datagram with sequence number 5,
acknowledgement number 6 and fragmented `false` yields sequence number 123123,
acknowledgement number 123123 and fragmented `true`, so the round trip does
not preserve these observable fields as claimed. -/
theorem claim_C1_counterexample :
    (Except.map (fun y => (y.sequenceNumber, y.acknowledgementNumber, y.fragmented))
      (do
        let out ← cexPushSchemas.serialize
        pushSchemasPipeline eW out : Except NTError NetTaskPushSchemas)) =
      .ok (123123, 123123, true) ∧
    (cexPushSchemas.sequenceNumber, cexPushSchemas.acknowledgementNumber,
      cexPushSchemas.fragmented) = (5, 6, false) := by
  decide

/-- C1 (amended): serialize followed by the full deserialization pipeline
preserves every observable field for `NetTaskRegister`,
`NetTaskRegisterChallenge` and `NetTaskRegisterChallenge2`; for
`NetTaskPushSchemas` it preserves `sessionId`, type and the schema map but
replaces sequence/acknowledgement/fragmented with the hardcoded
123123/123123/`true`; for `NetTaskMetric` (ASCII `taskId`, matching task
configuration) it preserves every observable field except `fragmented`, which
becomes `true`. -/
theorem claim_C1_amended :
    (∀ (x : NetTaskRegister), x.sessionId.length = HASH_LEN →
      x.sequenceNumber < 4294967296 → x.acknowledgementNumber < 4294967296 →
      x.publicKey.length + 21 < 4294967296 →
      registerPipeline x.serialize = .ok x) ∧
    (∀ (x : NetTaskRegisterChallenge), x.sessionId.length = HASH_LEN →
      x.sequenceNumber < 4294967296 → x.acknowledgementNumber < 4294967296 →
      x.publicKey.length + x.challenge.length + x.salt.length + 29 < 4294967296 →
      registerChallengePipeline x.serialize = .ok x) ∧
    (∀ (x : NetTaskRegisterChallenge2) (e : ECDHE), x.ecdhe = some e →
      x.sessionId.length = HASH_LEN →
      x.sequenceNumber < 4294967296 → x.acknowledgementNumber < 4294967296 →
      x.challenge.length + 21 < 4294967296 →
      (do
        let out ← x.serialize
        registerChallenge2Pipeline out : Except NTError NetTaskRegisterChallenge2) =
        .ok { x with ecdhe := none }) ∧
    (∀ (x : NetTaskPushSchemas) (e : ECDHE) (m : List (List Nat × Nat)),
      x.ecdhe = some e → x.spack = .collection m →
      x.sessionId.length = HASH_LEN →
      x.sequenceNumber < 4294967296 → x.acknowledgementNumber < 4294967296 →
      spackWF m → 2 * e.key.length + (serializeSPACK m).length + 60 < 4294967296 →
      (do
        let out ← x.serialize
        pushSchemasPipeline e out : Except NTError NetTaskPushSchemas) =
        .ok { x with sequenceNumber := 123123, acknowledgementNumber := 123123,
                     fragmented := true, ecdhe := none }) ∧
    (∀ (x : NetTaskMetric) (e : ECDHE) (t : Nat) (configTasks : List (List Nat × Nat)),
      x.ecdhe = some e → x.task = some t → configTasks.lookup x.taskId = x.task →
      asciiOnly x.taskId →
      x.sessionId.length = HASH_LEN →
      x.sequenceNumber < 4294967296 → x.acknowledgementNumber < 4294967296 →
      x.spack < 4294967296 → 2 * e.key.length + x.taskId.length + 70 < 4294967296 →
      (do
        let out ← x.serialize
        metricPipeline e configTasks out : Except NTError NetTaskMetric) =
        .ok { x with fragmented := true, ecdhe := none }) := by
  refine ⟨register_roundtrip, registerChallenge_roundtrip, ?_, ?_, ?_⟩
  · intro x e h1 h2 h3 h4 h5
    exact registerChallenge2_roundtrip x e h1 h2 h3 h4 h5
  · intro x e m h1 h2 h3 h4 h5 h6 h7
    exact pushSchemas_roundtrip x e m h1 h2 h3 h4 h5 h6 h7
  · intro x e t cfg h1 h2 h3 h4 h5 h6 h7 h8 h9
    exact metric_roundtrip x e t cfg h1 h2 h3 h4 h5 h6 h7 h8 h9

/-- C1 witness: the amended round trip evaluated at concrete datagrams of all five
variants. -/
theorem claim_C1_witness :
    registerPipeline wReg.serialize = .ok wReg ∧
    registerChallengePipeline wChal.serialize = .ok wChal ∧
    (do
      let out ← wChal2.serialize
      registerChallenge2Pipeline out : Except NTError NetTaskRegisterChallenge2) =
      .ok { wChal2 with ecdhe := none } ∧
    (do
      let out ← wPS.serialize
      pushSchemasPipeline eW out : Except NTError NetTaskPushSchemas) =
      .ok { wPS with sequenceNumber := 123123, acknowledgementNumber := 123123,
                     fragmented := true, ecdhe := none } ∧
    (do
      let out ← wMet.serialize
      metricPipeline eW wCfg out : Except NTError NetTaskMetric) =
      .ok { wMet with fragmented := true, ecdhe := none } :=
  ⟨claim_C1_amended.1 wReg (by decide) (by decide) (by decide) (by decide),
   claim_C1_amended.2.1 wChal (by decide) (by decide) (by decide) (by decide),
   claim_C1_amended.2.2.1 wChal2 eW (by decide) (by decide) (by decide) (by decide)
     (by decide),
   claim_C1_amended.2.2.2.1 wPS eW [([97], 42), ([98, 99], 7)] (by decide) (by decide)
     (by decide) (by decide) (by decide) (by decide) (by decide),
   claim_C1_amended.2.2.2.2 wMet eW 3 wCfg (by decide) (by decide) (by decide) (by decide)
     (by decide) (by decide) (by decide) (by decide) (by decide)⟩

/-- C2: for every variant, after `serialize` the u32 `payloadSize` stored in the
public header equals the byte length of everything that follows the public
header, i.e. the total serialized length minus `4 + HASH_LEN + 2 + 4`; each
variant computes `payloadSize` before the public header is emitted, so the
stored value is exact with no back-patching. -/
theorem claim_C2 :
    (∀ (x : NetTaskRejected), x.sessionId.length = HASH_LEN →
      payloadSizeExact x.serialize) ∧
    (∀ (x : NetTaskRegister), x.sessionId.length = HASH_LEN →
      x.publicKey.length + 21 < 4294967296 → payloadSizeExact x.serialize) ∧
    (∀ (x : NetTaskRegisterChallenge), x.sessionId.length = HASH_LEN →
      x.publicKey.length + x.challenge.length + x.salt.length + 29 < 4294967296 →
      payloadSizeExact x.serialize) ∧
    (∀ (x : NetTaskRegisterChallenge2) (e : ECDHE) (out : List Nat), x.ecdhe = some e →
      x.sessionId.length = HASH_LEN → x.challenge.length + 21 < 4294967296 →
      x.serialize = .ok out → payloadSizeExact out) ∧
    (∀ (x : NetTaskPushSchemas) (e : ECDHE) (out : List Nat), x.ecdhe = some e →
      x.sessionId.length = HASH_LEN →
      2 * e.key.length + x.packBytes.length + 60 < 4294967296 →
      x.serialize = .ok out → payloadSizeExact out) ∧
    (∀ (x : NetTaskMetric) (e : ECDHE) (out : List Nat), x.ecdhe = some e →
      x.sessionId.length = HASH_LEN →
      2 * e.key.length + x.packCompound.length + 60 < 4294967296 →
      x.serialize = .ok out → payloadSizeExact out) := by
  refine ⟨?_, ?_, ?_, ?_, ?_, ?_⟩
  · intro x hsid
    simp only [NetTaskRejected.serialize, NetTask.serializePublicHeader,
      NetTask.serializePrivateHeader, NetTaskRejected.toNetTask, NetTask.mk', writeBool8,
      List.append_assoc]
    exact payloadSizeExact_mk _ _ _ _ hsid rfl rfl (by simp [writeUInt32]; try omega)
  · intro x hsid hb
    simp only [NetTaskRegister.serialize, NetTask.serializePublicHeader,
      NetTask.serializePrivateHeader, NetTaskRegister.toNetTask, NetTask.mk', writeBool8,
      List.append_assoc]
    exact payloadSizeExact_mk _ _ _ _ hsid rfl
      (by simp [writeUInt32, writeBool8]; omega) (by simp [writeUInt32]; omega)
  · intro x hsid hb
    simp only [NetTaskRegisterChallenge.serialize, NetTask.serializePublicHeader,
      NetTask.serializePrivateHeader, NetTaskRegisterChallenge.toNetTask, NetTask.mk',
      writeBool8, List.append_assoc]
    exact payloadSizeExact_mk _ _ _ _ hsid rfl
      (by simp [writeUInt32, writeBool8]; omega) (by simp [writeUInt32]; omega)
  · intro x e out hlink hsid hb hser
    simp only [NetTaskRegisterChallenge2.serialize, hlink, Except.ok.injEq] at hser
    subst hser
    simp only [NetTask.serializePublicHeader, NetTask.serializePrivateHeader,
      NetTaskRegisterChallenge2.toNetTask, NetTask.mk', writeBool8, List.append_assoc]
    exact payloadSizeExact_mk _ _ _ _ hsid rfl
      (by simp [writeUInt32, writeBool8]; omega) (by simp [writeUInt32]; omega)
  · intro x e out hlink hsid hb hser
    simp only [NetTaskPushSchemas.serialize, hlink, Except.ok.injEq] at hser
    subst hser
    simp only [NetTask.serializePublicHeader, NetTask.serializePrivateHeader,
      NetTaskPushSchemas.toNetTask, NetTask.mk', writeBool8, List.append_assoc]
    exact payloadSizeExact_mk _ _ _ _ hsid rfl rfl
      (by simp [serializeEncryptedMessage_length, ECDHE.envelope, ECDHE.encrypt,
        writeUInt32, writeBool8]; omega)
  · intro x e out hlink hsid hb hser
    simp only [NetTaskMetric.serialize, hlink, Except.ok.injEq] at hser
    subst hser
    simp only [NetTask.serializePublicHeader, NetTask.serializePrivateHeader,
      NetTaskMetric.toNetTask, NetTask.mk', writeBool8, List.append_assoc]
    exact payloadSizeExact_mk _ _ _ _ hsid rfl rfl
      (by simp [serializeEncryptedMessage_length, ECDHE.envelope, ECDHE.encrypt,
        writeUInt32, writeBool8]; omega)

/-- C2 witness: payload-size exactness evaluated on concrete serialized datagrams
of all six variants. -/
theorem claim_C2_witness :
    payloadSizeExact (NetTaskRejected.serialize
      { sessionId := sid0, sequenceNumber := 1, acknowledgementNumber := 2 }) ∧
    payloadSizeExact wReg.serialize ∧
    payloadSizeExact wChal.serialize ∧
    (∀ (out : List Nat), wChal2.serialize = .ok out → payloadSizeExact out) ∧
    (∀ (out : List Nat), wPS.serialize = .ok out → payloadSizeExact out) ∧
    (∀ (out : List Nat), wMet.serialize = .ok out → payloadSizeExact out) :=
  ⟨claim_C2.1 _ (by decide),
   claim_C2.2.1 wReg (by decide) (by decide),
   claim_C2.2.2.1 wChal (by decide) (by decide),
   fun out hser => claim_C2.2.2.2.1 wChal2 eW out (by decide) (by decide) (by decide) hser,
   fun out hser => claim_C2.2.2.2.2.1 wPS eW out (by decide) (by decide) (by decide) hser,
   fun out hser => claim_C2.2.2.2.2.2 wMet eW out (by decide) (by decide) (by decide) hser⟩

/-- C3: with a linked ECDHE, `NetTaskPushSchemas.serialize` and
`NetTaskMetric.serialize` emit exactly PublicHeader ‖ outerEnc, where outerEnc
is the serialized AEAD envelope of (PrivateHeader ‖ u32 innerEncLen ‖
innerEnc), innerEnc is the serialized `encrypt` of the inner cleartext, and
the public header's `payloadSize` is outerEnc's byte length; the private
header occurs only inside the envelope plaintext, never in the cleartext body. -/
theorem claim_C3 :
    (∀ (x : NetTaskPushSchemas) (e : ECDHE), x.ecdhe = some e →
      x.serialize = .ok ((x.toNetTask (ECDHE.serializeEncryptedMessage (e.envelope
          ((x.toNetTask 0).serializePrivateHeader ++
            writeUInt32 (ECDHE.serializeEncryptedMessage
              (e.encrypt (writeUInt32 x.packBytes.length ++ x.packBytes))).length ++
            ECDHE.serializeEncryptedMessage
              (e.encrypt (writeUInt32 x.packBytes.length ++ x.packBytes))))).length
        ).serializePublicHeader ++
        ECDHE.serializeEncryptedMessage (e.envelope
          ((x.toNetTask 0).serializePrivateHeader ++
            writeUInt32 (ECDHE.serializeEncryptedMessage
              (e.encrypt (writeUInt32 x.packBytes.length ++ x.packBytes))).length ++
            ECDHE.serializeEncryptedMessage
              (e.encrypt (writeUInt32 x.packBytes.length ++ x.packBytes)))))) ∧
    (∀ (x : NetTaskMetric) (e : ECDHE), x.ecdhe = some e →
      x.serialize = .ok ((x.toNetTask (ECDHE.serializeEncryptedMessage (e.envelope
          ((x.toNetTask 0).serializePrivateHeader ++
            writeUInt32 (ECDHE.serializeEncryptedMessage
              (e.encrypt x.packCompound)).length ++
            ECDHE.serializeEncryptedMessage (e.encrypt x.packCompound)))).length
        ).serializePublicHeader ++
        ECDHE.serializeEncryptedMessage (e.envelope
          ((x.toNetTask 0).serializePrivateHeader ++
            writeUInt32 (ECDHE.serializeEncryptedMessage
              (e.encrypt x.packCompound)).length ++
            ECDHE.serializeEncryptedMessage (e.encrypt x.packCompound))))) :=
  ⟨fun x e h => by simp [NetTaskPushSchemas.serialize, h],
   fun x e h => by simp [NetTaskMetric.serialize, h]⟩

/-- C3 witness: the encrypted layout evaluated on concrete linked PushSchemas and
Metric datagrams. -/
theorem claim_C3_witness :
    wPS.serialize = .ok ((wPS.toNetTask (ECDHE.serializeEncryptedMessage (eW.envelope
        ((wPS.toNetTask 0).serializePrivateHeader ++
          writeUInt32 (ECDHE.serializeEncryptedMessage
            (eW.encrypt (writeUInt32 wPS.packBytes.length ++ wPS.packBytes))).length ++
          ECDHE.serializeEncryptedMessage
            (eW.encrypt (writeUInt32 wPS.packBytes.length ++ wPS.packBytes))))).length
      ).serializePublicHeader ++
      ECDHE.serializeEncryptedMessage (eW.envelope
        ((wPS.toNetTask 0).serializePrivateHeader ++
          writeUInt32 (ECDHE.serializeEncryptedMessage
            (eW.encrypt (writeUInt32 wPS.packBytes.length ++ wPS.packBytes))).length ++
          ECDHE.serializeEncryptedMessage
            (eW.encrypt (writeUInt32 wPS.packBytes.length ++ wPS.packBytes))))) ∧
    wMet.serialize = .ok ((wMet.toNetTask (ECDHE.serializeEncryptedMessage (eW.envelope
        ((wMet.toNetTask 0).serializePrivateHeader ++
          writeUInt32 (ECDHE.serializeEncryptedMessage
            (eW.encrypt wMet.packCompound)).length ++
          ECDHE.serializeEncryptedMessage (eW.encrypt wMet.packCompound)))).length
      ).serializePublicHeader ++
      ECDHE.serializeEncryptedMessage (eW.envelope
        ((wMet.toNetTask 0).serializePrivateHeader ++
          writeUInt32 (ECDHE.serializeEncryptedMessage
            (eW.encrypt wMet.packCompound)).length ++
          ECDHE.serializeEncryptedMessage (eW.encrypt wMet.packCompound)))) :=
  ⟨claim_C3.1 wPS eW (by decide), claim_C3.2 wMet eW (by decide)⟩

/-- C4: for every datagram built by a variant constructor, `cryptoMark = \"CC\"`
iff the type is `PUSH_SCHEMAS` or `SEND_METRICS`; the four handshake variants
(`REQUEST_REGISTER`, `REGISTER_CHALLENGE`, `REGISTER_CHALLENGE2`,
`CONNECTION_REJECTED`) always carry `\"NC\"`. -/
theorem claim_C4 :
    (∀ (x : NetTaskRejected) (ps : Nat),
      ((x.toNetTask ps).cryptoMark = NET_TASK_CRYPTO ↔
        ((x.toNetTask ps).type = NetTaskDatagramType.PUSH_SCHEMAS ∨
         (x.toNetTask ps).type = NetTaskDatagramType.SEND_METRICS)) ∧
      (x.toNetTask ps).cryptoMark = NET_TASK_NOCRYPTO) ∧
    (∀ (x : NetTaskRegister) (ps : Nat),
      ((x.toNetTask ps).cryptoMark = NET_TASK_CRYPTO ↔
        ((x.toNetTask ps).type = NetTaskDatagramType.PUSH_SCHEMAS ∨
         (x.toNetTask ps).type = NetTaskDatagramType.SEND_METRICS)) ∧
      (x.toNetTask ps).cryptoMark = NET_TASK_NOCRYPTO) ∧
    (∀ (x : NetTaskRegisterChallenge) (ps : Nat),
      ((x.toNetTask ps).cryptoMark = NET_TASK_CRYPTO ↔
        ((x.toNetTask ps).type = NetTaskDatagramType.PUSH_SCHEMAS ∨
         (x.toNetTask ps).type = NetTaskDatagramType.SEND_METRICS)) ∧
      (x.toNetTask ps).cryptoMark = NET_TASK_NOCRYPTO) ∧
    (∀ (x : NetTaskRegisterChallenge2) (ps : Nat),
      ((x.toNetTask ps).cryptoMark = NET_TASK_CRYPTO ↔
        ((x.toNetTask ps).type = NetTaskDatagramType.PUSH_SCHEMAS ∨
         (x.toNetTask ps).type = NetTaskDatagramType.SEND_METRICS)) ∧
      (x.toNetTask ps).cryptoMark = NET_TASK_NOCRYPTO) ∧
    (∀ (x : NetTaskPushSchemas) (ps : Nat),
      ((x.toNetTask ps).cryptoMark = NET_TASK_CRYPTO ↔
        ((x.toNetTask ps).type = NetTaskDatagramType.PUSH_SCHEMAS ∨
         (x.toNetTask ps).type = NetTaskDatagramType.SEND_METRICS)) ∧
      (x.toNetTask ps).cryptoMark = NET_TASK_CRYPTO) ∧
    (∀ (x : NetTaskMetric) (ps : Nat),
      ((x.toNetTask ps).cryptoMark = NET_TASK_CRYPTO ↔
        ((x.toNetTask ps).type = NetTaskDatagramType.PUSH_SCHEMAS ∨
         (x.toNetTask ps).type = NetTaskDatagramType.SEND_METRICS)) ∧
      (x.toNetTask ps).cryptoMark = NET_TASK_CRYPTO) := by
  refine ⟨?_, ?_, ?_, ?_, ?_, ?_⟩ <;>
    intro x ps <;>
    simp [NetTaskRejected.toNetTask, NetTaskRegister.toNetTask,
      NetTaskRegisterChallenge.toNetTask, NetTaskRegisterChallenge2.toNetTask,
      NetTaskPushSchemas.toNetTask, NetTaskMetric.toNetTask, NetTask.mk',
      NET_TASK_CRYPTO, NET_TASK_NOCRYPTO, NetTaskDatagramType.PUSH_SCHEMAS,
      NetTaskDatagramType.SEND_METRICS, NetTaskDatagramType.CONNECTION_REJECTED,
      NetTaskDatagramType.REQUEST_REGISTER, NetTaskDatagramType.REGISTER_CHALLENGE,
      NetTaskDatagramType.REGISTER_CHALLENGE2]

/-- C5 counterexample: deserializing a concrete Metric datagram whose `taskId` is
absent from the receiver's task configuration fails with `MalformedPayload`
(wrapping the unknown-task cause), which is a different error from the
`UnknownTask` the claim requires. -/
theorem claim_C5_counterexample :
    (do
      let out ← cexMetric.serialize
      metricPipeline eW [] out : Except NTError NetTaskMetric) =
      .error (.MalformedPayload .UnknownTask) ∧
    (NTError.MalformedPayload .UnknownTask ≠ .UnknownTask) := by
  decide

/-- C5 (amended): a `taskId` not in the task-configuration map makes
`NetTaskMetric.deserialize` fail with `MalformedPayload` wrapping the
unknown-task cause — the catch-all rethrow in the source re-labels every
failure of the payload block, so no distinct `UnknownTask` error is surfaced;
a `taskId` present in the configuration deserializes successfully. -/
theorem claim_C5_amended :
    (∀ (x : NetTaskMetric) (e : ECDHE) (configTasks : List (List Nat × Nat)),
      x.ecdhe = some e → configTasks.lookup x.taskId = none →
      asciiOnly x.taskId → x.sessionId.length = HASH_LEN →
      x.sequenceNumber < 4294967296 → x.acknowledgementNumber < 4294967296 →
      2 * e.key.length + x.taskId.length + 70 < 4294967296 →
      (do
        let out ← x.serialize
        metricPipeline e configTasks out : Except NTError NetTaskMetric) =
        .error (.MalformedPayload .UnknownTask)) ∧
    (∀ (x : NetTaskMetric) (e : ECDHE) (t : Nat) (configTasks : List (List Nat × Nat)),
      x.ecdhe = some e → x.task = some t → configTasks.lookup x.taskId = x.task →
      asciiOnly x.taskId → x.sessionId.length = HASH_LEN →
      x.sequenceNumber < 4294967296 → x.acknowledgementNumber < 4294967296 →
      x.spack < 4294967296 → 2 * e.key.length + x.taskId.length + 70 < 4294967296 →
      (do
        let out ← x.serialize
        metricPipeline e configTasks out : Except NTError NetTaskMetric) =
        .ok { x with fragmented := true, ecdhe := none }) := by
  refine ⟨?_, ?_⟩
  · intro x e cfg h1 h2 h3 h4 h5 h6 h7
    exact metric_unknownTask x e cfg h1 h2 h3 h4 h5 h6 h7
  · intro x e t cfg h1 h2 h3 h4 h5 h6 h7 h8 h9
    exact metric_roundtrip x e t cfg h1 h2 h3 h4 h5 h6 h7 h8 h9

/-- C5 witness: the amended behaviour evaluated at a concrete unknown-task Metric
and a concrete known-task Metric. -/
theorem claim_C5_witness :
    (do
      let out ← NetTaskMetric.serialize
        { sessionId := sid0, sequenceNumber := 3, acknowledgementNumber := 4,
          fragmented := true, spack := 8, taskId := [100], task := some 1,
          ecdhe := some eW }
      metricPipeline eW [([101], 1)] out : Except NTError NetTaskMetric) =
      .error (.MalformedPayload .UnknownTask) ∧
    (do
      let out ← wMet.serialize
      metricPipeline eW wCfg out : Except NTError NetTaskMetric) =
      .ok { wMet with fragmented := true, ecdhe := none } :=
  ⟨claim_C5_amended.1 _ eW [([101], 1)] (by decide) (by decide) (by decide) (by decide)
     (by decide) (by decide) (by decide),
   claim_C5_amended.2 wMet eW 3 wCfg (by decide) (by decide) (by decide) (by decide)
     (by decide) (by decide) (by decide) (by decide) (by decide)⟩

/-- C6: `deserializePrivateHeader` fails with `InvalidVersion` exactly when the
u32 version it reads differs from 1; when the version is 1 it returns a base
datagram carrying the public header's `sessionId`, `cryptoMark` and
`payloadSize` together with the parsed sequence number, acknowledgement
number, fragmented flag and type. -/
theorem claim_C6 (v seq ack fb ty : Nat) (rest : List Nat) (ph : NetTaskPublicHeader)
    (hv : v < 4294967296) (hseq : seq < 4294967296) (hack : ack < 4294967296)
    (hfb : fb < 256) (hty : ty < 4294967296) :
    NetTask.deserializePrivateHeader
        (writeUInt32 v ++ (writeUInt32 seq ++ (writeUInt32 ack ++
          ([fb] ++ (writeUInt32 ty ++ rest))))) ph =
      if v = NET_TASK_VERSION then
        .ok (NetTask.mk' ph.sessionId ph.cryptoMark seq ack (fb ≠ 0) ty ph.payloadSize, rest)
      else .error .InvalidVersion :=
  deserializePrivateHeader_append v seq ack fb ty rest ph hv hseq hack hfb hty

/-- C6 witness: the private-header parse evaluated at version 7 (rejected) and
version 1 (accepted). -/
theorem claim_C6_witness :
    NetTask.deserializePrivateHeader
        (writeUInt32 7 ++ (writeUInt32 1 ++ (writeUInt32 2 ++
          ([1] ++ (writeUInt32 0 ++ []))))) phW = .error .InvalidVersion ∧
    NetTask.deserializePrivateHeader
        (writeUInt32 1 ++ (writeUInt32 1 ++ (writeUInt32 2 ++
          ([0] ++ (writeUInt32 3 ++ []))))) phW =
      .ok (NetTask.mk' phW.sessionId phW.cryptoMark 1 2 ((0 : Nat) ≠ 0) 3
        phW.payloadSize, []) := by
  constructor
  · rw [claim_C6 7 1 2 1 0 [] phW (by decide) (by decide) (by decide) (by decide)
      (by decide)]
    decide
  · rw [claim_C6 1 1 2 0 3 [] phW (by decide) (by decide) (by decide) (by decide)
      (by decide)]
    decide

/-- C7: `deserializePublicHeader` returns the `{sessionId, cryptoMark,
payloadSize}` record whenever the 2-byte mark read after the `HASH_LEN`-byte
session id is `\"CC\"` or `\"NC\"`, and fails with `InvalidCryptoMark` for
every other 2-byte mark. -/
theorem claim_C7 (sid mark : List Nat) (ps : Nat) (rest : List Nat)
    (hsid : sid.length = HASH_LEN) (hmark : mark.length = 2) (hps : ps < 4294967296) :
    NetTask.deserializePublicHeader (sid ++ (mark ++ (writeUInt32 ps ++ rest))) =
      if NET_TASK_CRYPTO ≠ mark ∧ NET_TASK_NOCRYPTO ≠ mark then .error .InvalidCryptoMark
      else .ok ({ sessionId := sid, cryptoMark := mark, payloadSize := ps }, rest) :=
  deserializePublicHeader_append sid mark ps rest hsid hmark hps

/-- C7 witness: the public-header parse evaluated at the mark `\"XX\"` (rejected)
and `\"CC\"` (accepted). -/
theorem claim_C7_witness :
    NetTask.deserializePublicHeader (sid0 ++ ([88, 88] ++ (writeUInt32 3 ++ []))) =
      .error .InvalidCryptoMark ∧
    NetTask.deserializePublicHeader (sid0 ++ ([67, 67] ++ (writeUInt32 3 ++ [9]))) =
      .ok ({ sessionId := sid0, cryptoMark := [67, 67], payloadSize := 3 }, [9]) := by
  constructor
  · rw [claim_C7 sid0 [88, 88] 3 [] (by decide) (by decide) (by decide)]
    decide
  · rw [claim_C7 sid0 [67, 67] 3 [9] (by decide) (by decide) (by decide)]
    decide

/-- C8: serializing a `NetTaskPushSchemas` or `NetTaskMetric` datagram on which no
ECDHE has been linked returns the `NotLinked` error; the guard precedes all
encryption, so no output bytes are produced. -/
theorem claim_C8 :
    (∀ (x : NetTaskPushSchemas), x.ecdhe = none → x.serialize = .error .NotLinked) ∧
    (∀ (x : NetTaskMetric), x.ecdhe = none → x.serialize = .error .NotLinked) :=
  ⟨fun x h => by simp [NetTaskPushSchemas.serialize, h],
   fun x h => by simp [NetTaskMetric.serialize, h]⟩

/-- C8 witness: both encrypted variants, freshly constructed and never linked,
fail to serialize with `NotLinked`. -/
theorem claim_C8_witness :
    NetTaskPushSchemas.serialize
      (NetTaskPushSchemas.mk' sid0 1 2 false (.collection [([97], 1)])) =
      .error .NotLinked ∧
    NetTaskMetric.serialize (NetTaskMetric.mk' sid0 1 2 false 9 [99] (some 4)) =
      .error .NotLinked :=
  ⟨claim_C8.1 _ (by decide), claim_C8.2 _ (by decide)⟩

/-- C9: in the Metric inner cleartext the u32 prefix before the `taskId` is its
UTF-16 code-unit count (the JS `.length`) while the bytes that follow are its
UTF-8 encoding; the two lengths agree exactly when the `taskId` is all-ASCII,
and under that precondition `NetTaskMetric.deserialize` recovers the original
`taskId` (and the metric payload). -/
theorem claim_C9 :
    (∀ (x : NetTaskMetric), x.packCompound =
      writeUInt32 (utf16Length x.taskId) ++ utf8Encode x.taskId ++
        writeUInt32 (serializeTaskMetric x.spack x.task).length ++
        serializeTaskMetric x.spack x.task) ∧
    (∀ (s : List Nat), (utf8Encode s).length = utf16Length s ↔ asciiOnly s) ∧
    (∀ (x : NetTaskMetric) (e : ECDHE) (t : Nat) (configTasks : List (List Nat × Nat)),
      x.ecdhe = some e → x.task = some t → configTasks.lookup x.taskId = x.task →
      (utf8Encode x.taskId).length = utf16Length x.taskId →
      x.sessionId.length = HASH_LEN →
      x.sequenceNumber < 4294967296 → x.acknowledgementNumber < 4294967296 →
      x.spack < 4294967296 → 2 * e.key.length + x.taskId.length + 70 < 4294967296 →
      (do
        let out ← x.serialize
        metricPipeline e configTasks out : Except NTError NetTaskMetric) =
        .ok { x with fragmented := true, ecdhe := none }) := by
  refine ⟨fun x => rfl, utf8_eq_utf16_iff_ascii, ?_⟩
  intro x e t cfg h1 h2 h3 h4 h5 h6 h7 h8 h9
  exact metric_roundtrip x e t cfg h1 h2 h3 ((utf8_eq_utf16_iff_ascii x.taskId).mp h4)
    h5 h6 h7 h8 h9

/-- C9 witness: the layout, the length equivalence at a non-ASCII example, and the
ASCII round trip at a concrete Metric datagram. -/
theorem claim_C9_witness :
    NetTaskMetric.packCompound wMet =
      writeUInt32 (utf16Length wMet.taskId) ++ utf8Encode wMet.taskId ++
        writeUInt32 (serializeTaskMetric wMet.spack wMet.task).length ++
        serializeTaskMetric wMet.spack wMet.task ∧
    ((utf8Encode [97, 955]).length = utf16Length [97, 955] ↔ asciiOnly [97, 955]) ∧
    (do
      let out ← wMet.serialize
      metricPipeline eW wCfg out : Except NTError NetTaskMetric) =
      .ok { wMet with fragmented := true, ecdhe := none } :=
  ⟨claim_C9.1 wMet, claim_C9.2.1 [97, 955],
   claim_C9.2.2 wMet eW 3 wCfg (by decide) (by decide) (by decide) (by decide) (by decide)
     (by decide) (by decide) (by decide) (by decide)⟩

/-- C10: `NetTaskRegisterChallenge2.serialize` fails with the not-linked error
whenever `link` has not been called, although the variant carries `cryptoMark
\"NC\"` and its serialization never uses the ECDHE; when an ECDHE is linked it
emits the cleartext layout PublicHeader ‖ PrivateHeader ‖ u32 challengeLen ‖
challenge with no encryption applied. -/
theorem claim_C10 :
    (∀ (x : NetTaskRegisterChallenge2), x.ecdhe = none →
      x.serialize = .error .NotLinked) ∧
    (∀ (x : NetTaskRegisterChallenge2) (e : ECDHE), x.ecdhe = some e →
      x.serialize = .ok ((x.toNetTask
          ((x.toNetTask 0).serializePrivateHeader.length + x.challenge.length + 4)
        ).serializePublicHeader ++
        (x.toNetTask 0).serializePrivateHeader ++
        writeUInt32 x.challenge.length ++ x.challenge)) :=
  ⟨fun x h => by simp [NetTaskRegisterChallenge2.serialize, h],
   fun x e h => by simp [NetTaskRegisterChallenge2.serialize, h]⟩

/-- C10 witness: the not-linked failure and the cleartext layout evaluated at
concrete RegisterChallenge2 datagrams. -/
theorem claim_C10_witness :
    NetTaskRegisterChallenge2.serialize (NetTaskRegisterChallenge2.mk' sid0 1 2 false [7]) =
      .error .NotLinked ∧
    wChal2.serialize = .ok ((wChal2.toNetTask
        ((wChal2.toNetTask 0).serializePrivateHeader.length + wChal2.challenge.length + 4)
      ).serializePublicHeader ++
      (wChal2.toNetTask 0).serializePrivateHeader ++
      writeUInt32 wChal2.challenge.length ++ wChal2.challenge) :=
  ⟨claim_C10.1 _ (by decide), claim_C10.2 wChal2 eW (by decide)⟩
